import Mathlib

/-!
Verification of the multi-source forecast normalization engine.

This file gives a shallow embedding of the forecast-scraping core
(`src/backcountry/sources/base.py`, `mountainforecast.py`,
`snowforecast.py`, `powdersearch.py` and the data model of `models.py`)
and proves or refutes the frozen specification claims about it.

Modelling conventions:
- Python `str` is modelled as `List Char` (named `Str`), so that every
  string operation is structurally recursive and kernel-evaluable.
- Python `float` is modelled as `Rat`; the code only ever divides by 3.6
  and rounds to 2 decimal places, and no rounding tie can occur for the
  integral inputs the wind regex admits, so the embedding is exact.
- HTML documents are modelled after the point where BeautifulSoup has
  produced the element tree: a table is a list of rows of cells, a cell
  carries its tag kind, its `data-date` / `colspan` / `rowspan`
  attributes and its extracted text (`get_text`).  All post-extraction
  text processing done by the Python code is embedded faithfully.
- Raisable Python functions return `Except PyErr`.
-/

attribute [local semireducible] Rat.add Rat.mul Rat.inv Rat.sub Rat.ofScientific

/-- Python `str`, modelled as a list of characters. -/
abbrev Str := List Char

/-- Embed a Lean string literal into the model. -/
def str (s : String) : Str := s.toList

/-- ASCII whitespace recognised by `str.strip()` (the inputs at hand
contain no exotic Unicode whitespace besides `\xa0`, which the code
replaces before stripping). -/
def isSpaceC (c : Char) : Bool := c == ' ' || c == '\t' || c == '\n' || c == '\r'

/-- `str.lstrip()`. -/
def lstrip (s : Str) : Str := s.dropWhile isSpaceC

/-- `str.rstrip()`. -/
def rstrip (s : Str) : Str := (s.reverse.dropWhile isSpaceC).reverse

/-- `str.strip()`. -/
def strip (s : Str) : Str := rstrip (lstrip s)

/-- ASCII lower-casing of one character, as `str.lower()` does on ASCII. -/
def toLowerC (c : Char) : Char :=
  if 'A' ≤ c ∧ c ≤ 'Z' then Char.ofNat (c.toNat + 32) else c

/-- ASCII upper-casing of one character, as `str.upper()` does on ASCII. -/
def toUpperC (c : Char) : Char :=
  if 'a' ≤ c ∧ c ≤ 'z' then Char.ofNat (c.toNat - 32) else c

/-- `str.lower()` (ASCII fragment). -/
def lowerStr (s : Str) : Str := s.map toLowerC

/-- `str.upper()` (ASCII fragment). -/
def upperStr (s : Str) : Str := s.map toUpperC

/-- Auxiliary recursion for `replaceStr`, with explicit fuel (the fuel is
always at least the length of the subject, so it never runs out). -/
def replaceAux (pat rep : Str) : Nat → Str → Str
  | _, [] => []
  | 0, s => s
  | fuel + 1, c :: rest =>
    if pat.isPrefixOf (c :: rest) then
      rep ++ replaceAux pat rep fuel (List.drop (pat.length - 1) rest)
    else
      c :: replaceAux pat rep fuel rest

/-- Python `s.replace(pat, rep)`: left-to-right, non-overlapping.  The
code only ever replaces non-empty patterns. -/
def replaceStr (s pat rep : Str) : Str :=
  if pat.isEmpty then s else replaceAux pat rep s.length s

/-- Value of a digit string, most significant first. -/
def natOfDigits (ds : Str) : Nat := ds.foldl (fun a c => 10 * a + (c.toNat - 48)) 0

/-- Python `int(s)` on a string: optional sign, then digits (whitespace
stripped).  Returns `none` where `int()` raises `ValueError`. -/
def parseIntStr (s : Str) : Option Int :=
  let t := strip s
  match t with
  | '-' :: ds =>
    if ds.isEmpty || !(ds.all Char.isDigit) then none else some (-(natOfDigits ds : Int))
  | '+' :: ds =>
    if ds.isEmpty || !(ds.all Char.isDigit) then none else some (natOfDigits ds : Int)
  | ds =>
    if ds.isEmpty || !(ds.all Char.isDigit) then none else some (natOfDigits ds : Int)

/-- Attempt to match `\d+(?:\.\d+)?` anchored at the head of `r`
(greedy, as `re` does), returning the matched text. -/
def matchNumCore (r : Str) : Option Str :=
  let ds := r.takeWhile Char.isDigit
  let r2 := r.dropWhile Char.isDigit
  if ds.isEmpty then none
  else
    match r2 with
    | '.' :: r3 =>
      let fs := r3.takeWhile Char.isDigit
      if fs.isEmpty then some ds else some (ds ++ '.' :: fs)
    | _ => some ds

/-- Attempt to match the regex `-?\d+(?:\.\d+)?` anchored at the head
of `cs`: a leading `-` must be followed by digits for the position to
match at all (the regex cannot backtrack into a sign-less match at the
same position, since `-` is not a digit). -/
def matchNum (cs : Str) : Option Str :=
  match cs with
  | '-' :: r => (matchNumCore r).map (fun m => '-' :: m)
  | r => matchNumCore r

/-- `re.search` for `-?\d+(?:\.\d+)?`: leftmost match, with its start
index. -/
def numSearchIdx : Str → Option (Nat × Str)
  | [] => none
  | c :: rest =>
    match matchNum (c :: rest) with
    | some m => some (0, m)
    | none => (numSearchIdx rest).map (fun p => (p.1 + 1, p.2))

/-- `re.search` for `-?\d+(?:\.\d+)?`, returning only the matched text. -/
def numSearch (s : Str) : Option Str := (numSearchIdx s).map (fun p => p.2)

/-- Exact rational value of an unsigned decimal numeral. -/
def ratOfUnsigned (m : Str) : Rat :=
  let ds := m.takeWhile Char.isDigit
  let rest := m.dropWhile Char.isDigit
  let ip : Rat := (natOfDigits ds : Nat)
  match rest with
  | '.' :: fs => ip + (natOfDigits fs : Rat) / ((10 : Rat) ^ fs.length)
  | _ => ip

/-- Exact rational value of a (possibly negative) decimal numeral, i.e.
the value `float(m)` denotes. -/
def ratOfNumeral (m : Str) : Rat :=
  match m with
  | '-' :: rest => -(ratOfUnsigned rest)
  | _ => ratOfUnsigned m

/-- Round to the nearest integer, ties to even (Python `round`). -/
def roundHalfEven (q : Rat) : Int :=
  let f : Int := q.floor
  let r : Rat := q - (f : Rat)
  if r < 1 / 2 then f
  else if 1 / 2 < r then f + 1
  else if f % 2 = 0 then f else f + 1

/-- Python `round(q, 2)`. -/
def round2 (q : Rat) : Rat := ((roundHalfEven (q * 100) : Int) : Rat) / 100

/-! ## Data model (`src/backcountry/models.py`) -/

/-- `models.Period`: the canonical three-valued period enumeration. -/
inductive Period where
  | morning
  | afternoon
  | night
deriving DecidableEq, Repr

/-- A calendar date (`datetime.date`). -/
structure Date where
  year : Nat
  month : Nat
  day : Nat
deriving DecidableEq, Repr

/-- Decimal digit character of `n % 10`. -/
def digitChar (n : Nat) : Char := Char.ofNat (48 + n % 10)

/-- Two-digit zero-padded rendering. -/
def pad2 (n : Nat) : Str := [digitChar (n / 10), digitChar n]

/-- Four-digit zero-padded rendering. -/
def pad4 (n : Nat) : Str :=
  [digitChar (n / 1000), digitChar (n / 100), digitChar (n / 10), digitChar n]

/-- `date.isoformat()`: `YYYY-MM-DD`. -/
def isoDate (d : Date) : Str := pad4 d.year ++ '-' :: pad2 d.month ++ '-' :: pad2 d.day

/-- `models.Mountain` (the fields the sources consult). -/
structure Mountain where
  mountain_id : Str
  name : Str := []
  sources : List (Str × Str) := []
deriving DecidableEq, Repr

/-- `dict.get` on the provider-URL map. -/
def lookupSource (m : Mountain) (key : Str) : Option Str :=
  (m.sources.find? (fun p => p.1 == key)).map (fun p => p.2)

/-- `models.ForecastPeriod`.  All numeric fields are optional; absence
means "not reported", never zero. -/
structure ForecastPeriod where
  mountain_id : Str
  source_name : Str
  target_date : Date
  period : Period
  snowfall_cm : Option Rat := none
  snowdepth_cm : Option Rat := none
  temp_low_c : Option Rat := none
  temp_high_c : Option Rat := none
  wind_speed_ms : Option Rat := none
  wind_gust_ms : Option Rat := none
  wind_dir : Option Str := none
  weather_desc : Option Str := none
  notes : Option Str := none
deriving DecidableEq, Repr

/-- One per-column entry of Mountain-Forecast's auxiliary `columns`
dump (the dict literal built in `_parse_forecast_table` /
`_fallback_daily`). -/
structure SummaryCol where
  date : Option Str
  period_label : Str
  weather : Option Str
  wind_direction : Option Str
  wind_speed_kmh : Option Rat
  wind_speed_ms : Option Rat
  wind_gust_kmh : Option Rat
  wind_gust_ms : Option Rat
  temperature_max_c : Option Rat
  temperature_min_c : Option Rat
  temperature_chill_c : Option Rat
  snowfall_cm : Option Rat
  rain_mm : Option Rat
deriving DecidableEq, Repr

/-- One entry of PowderSearch's auxiliary `hours` sequence (the dict
literal built in `_parse_hourly_table`). -/
structure HourEntry where
  hour : Int
  temperature_c : Option Rat
  precipitation_mm : Option Rat
  wind_direction : Option Str
  wind_speed_ms : Option Rat
  sunshine_hours : Option Rat
  snow_depth_cm : Option Rat
  snowfall_cm : Option Rat
deriving DecidableEq, Repr

/-- The `daily_summary_json` open map, restricted to the keys the three
providers actually write.  A `none` / `[]` field models an absent key. -/
structure DailySummary where
  status : Option Str := none
  reason : Option Str := none
  source_urls : List Str := []
  fetched_at : Option Str := none
  columns : Option (List SummaryCol) := none
  hours : Option (List HourEntry) := none
  units : List (Str × Str) := []
deriving DecidableEq, Repr

/-- `models.ForecastDaily` (the fields the sources populate). -/
structure ForecastDaily where
  mountain_id : Str
  source_name : Str
  target_date : Date
  periods : List ForecastPeriod
  daily_summary_json : DailySummary := {}
deriving DecidableEq, Repr

deriving instance DecidableEq for Except

/-- The exception kinds the embedded code can raise. -/
inductive PyErr where
  /-- `requests.RequestException` (transport or HTTP failure). -/
  | reqErr (msg : Str)
  /-- `RuntimeError`. -/
  | runtimeErr (msg : Str)
  /-- `OSError` from reading a missing local file. -/
  | osErr
  /-- `ValueError` (e.g. `int()` on a non-numeral). -/
  | valueErr
deriving DecidableEq, Repr

/-! ## Retrieval and offline-fallback policy (`sources/base.py`) -/

/-- Characters allowed after the first letter of a URL scheme. -/
def isSchemeC (c : Char) : Bool := c.isAlpha || c.isDigit || c == '+' || c == '-' || c == '.'

/-- `urllib.parse.urlparse(url).scheme`: the lower-cased prefix before
the first `:` when it is a well-formed scheme, else the empty string. -/
def urlScheme (u : Str) : Str :=
  let pre := u.takeWhile (fun c => c != ':')
  let rest := u.dropWhile (fun c => c != ':')
  match rest with
  | ':' :: _ =>
    match pre with
    | [] => []
    | c :: cs => if c.isAlpha && cs.all isSchemeC then lowerStr pre else []
  | _ => []

/-- `BaseSource._is_local_url`: scheme empty or `file`. -/
def isLocalUrl (u : Str) : Bool :=
  urlScheme u == ([] : Str) || urlScheme u == str "file"

/-- The state the retrieval layer depends on, for a single URL.
`α` is the type of fetched content (text, already decoded and — for the
parsing claims — already element-tree-parsed, both external steps).
`sample` is the content of the offline sample file at the deterministic
path (`none` when that file does not exist), `localFile` the content of
the file a local URL resolves to. -/
structure FetchEnv (α : Type) where
  offlineFlag : Option Str := none
  offlineDir : Option Str := none
  sample : Option α := none
  live : Except Str α := Except.error []
  localFile : Option α := none

/-- Python truthiness of an optional environment string (`if not flag`). -/
def isTruthy (o : Option Str) : Bool :=
  match o with
  | none => false
  | some s => !s.isEmpty

/-- The deterministic sample path `{dir}/{source_name}_{date}.html`
of `BaseSource._offline_sample_path` (directory from the
`BACKCOUNTRY_OFFLINE_SAMPLE_DIR` variable, defaulting to
`local_samples`; making it absolute under the project root is
file-system plumbing outside the model). -/
def samplePath {α : Type} (srcName : Str) (d : Date) (env : FetchEnv α) : Str :=
  (env.offlineDir.getD (str "local_samples")) ++
    '/' :: (srcName ++ '_' :: isoDate d ++ str ".html")

/-- `BaseSource._offline_sample_path`: `none` iff the offline flag is
not set (falsy). -/
def offlineSamplePath {α : Type} (srcName : Str) (d : Date) (env : FetchEnv α) : Option Str :=
  if isTruthy env.offlineFlag then some (samplePath srcName d env) else none

/-- The `RuntimeError` message of `_fetch_with_fallback` when offline
mode is on but the sample file is absent. -/
def offlineMissingMsg (u p : Str) : Str :=
  str "Failed to fetch '" ++ u ++ str "' and offline sample not found at " ++ p

/-- `BaseSource.fetch_text`: local URLs are read from the file system,
anything else is an HTTP GET whose failure is a `RequestException`. -/
def fetchText {α : Type} (env : FetchEnv α) (u : Str) : Except PyErr α :=
  if isLocalUrl u then
    match env.localFile with
    | some a => Except.ok a
    | none => Except.error PyErr.osErr
  else
    match env.live with
    | Except.ok a => Except.ok a
    | Except.error m => Except.error (PyErr.reqErr m)

/-- `BaseSource._fetch_with_fallback`: local URLs bypass everything;
a live-fetch `RequestException` is recovered from the offline sample
when the offline flag is set and the sample exists, turned into a
`RuntimeError` when the flag is set but the sample is absent, and
re-raised unchanged when the flag is unset. -/
def fetchWithFallback {α : Type} (srcName : Str) (d : Date) (env : FetchEnv α) (u : Str) :
    Except PyErr α :=
  if isLocalUrl u then
    match env.localFile with
    | some a => Except.ok a
    | none => Except.error PyErr.osErr
  else
    match env.live with
    | Except.ok a => Except.ok a
    | Except.error m =>
      match offlineSamplePath srcName d env with
      | some p =>
        match env.sample with
        | some a => Except.ok a
        | none => Except.error (PyErr.runtimeErr (offlineMissingMsg u p))
      | none => Except.error (PyErr.reqErr m)

/-! ## HTML element-tree model

The sources consume BeautifulSoup element trees.  A cell carries the tag
kind, the attributes the code reads (`data-date`, `colspan`, `rowspan`)
and its extracted text (`get_text`); a grid table is the list of its
`tr[data-row=...]` rows, keyed by their `data-row` value. -/

structure Cell where
  isTh : Bool := false
  dataDate : Option Str := none
  colspanAttr : Option Str := none
  hasRowspan : Bool := false
  text : Str := []
deriving DecidableEq, Repr

/-- A grid table: direct-child rows keyed by their `data-row` value,
each holding its direct-child `th`/`td` cells. -/
structure NamedTable where
  rows : List (Str × List Cell)
deriving DecidableEq, Repr

/-- `table.select_one("tr[data-row='name']")`: the first matching row. -/
def selectRow (t : NamedTable) (name : Str) : Option (List Cell) :=
  (t.rows.find? (fun p => p.1 == name)).map (fun p => p.2)

/-! ## Mountain-Forecast source (`sources/mountainforecast.py`) -/

def mfSourceName : Str := str "mountainforecast"

/-- `_MISSING_MARKERS` of mountainforecast.py. -/
def mfMissingMarkers : List Str := [str "?", str "-", str "--", []]

/-- `MountainForecastSource._cell_text`: non-breaking spaces replaced,
stripped, missing markers mapped to `None`. -/
def mfCellText (c : Cell) : Option Str :=
  let t := strip (replaceStr c.text [Char.ofNat 0xA0] (str " "))
  if t.isEmpty || mfMissingMarkers.contains t then none else some t

/-- `MountainForecastSource._row_values`: the texts of the direct `td`
children of the named row, `[]` when the row is absent. -/
def mfRowValues (t : NamedTable) (name : Str) : List (Option Str) :=
  match selectRow t name with
  | none => []
  | some cells => (cells.filter (fun c => !c.isTh)).map mfCellText

/-- `int(cell.get("colspan") or 1)`: a missing or empty attribute
defaults to 1, a non-numeral attribute raises `ValueError`. -/
def colspanOf (c : Cell) : Except PyErr Int :=
  match c.colspanAttr with
  | none => Except.ok 1
  | some s =>
    if s.isEmpty then Except.ok 1
    else
      match parseIntStr s with
      | some n => Except.ok n
      | none => Except.error PyErr.valueErr

/-- The expansion loop of `_expand_dates`: each cell contributes its
`data-date` repeated `colspan` times. -/
def expandCells : List Cell → Except PyErr (List (Option Str))
  | [] => Except.ok []
  | c :: rest =>
    match colspanOf c with
    | Except.error e => Except.error e
    | Except.ok n => (expandCells rest).map (fun l => List.replicate n.toNat c.dataDate ++ l)

/-- `MountainForecastSource._expand_dates` (over the `td` children of
the `days` row; `[]` when the row is absent). -/
def mfExpandDates (t : NamedTable) : Except PyErr (List (Option Str)) :=
  match selectRow t (str "days") with
  | none => Except.ok []
  | some cells => expandCells (cells.filter (fun c => !c.isTh))

/-- `MountainForecastSource._value_at`: positional lookup, absent past
the end. -/
def mfValueAt (values : List (Option Str)) (i : Nat) : Option Str :=
  match values.get? i with
  | none => none
  | some v => v

/-- `MountainForecastSource._parse_float` (and, identically,
`SnowForecastSource._extract_float`'s core): first `-?\d+(?:\.\d+)?`
match of the text, parsed exactly; `None` on garbage.  The
`float(...)`  call never raises on a regex match, so the guarded
`except ValueError` branch is dead. -/
def mfParseFloat (text : Option Str) : Option Rat :=
  match text with
  | none => none
  | some s => if s.isEmpty then none else (numSearch s).map ratOfNumeral

/-- Result tuple of `MountainForecastSource._parse_wind`. -/
structure MFWind where
  direction : Option Str := none
  speed_ms : Option Rat := none
  speed_kmh : Option Rat := none
  gust_ms : Option Rat := none
  gust_kmh : Option Rat := none
deriving DecidableEq, Repr

/-- `[A-Z]` (ASCII). -/
def isUpperAZ (c : Char) : Bool := 'A' ≤ c && c ≤ 'Z'

/-- Match `_WIND_RE = (?P<speed>\d+)(?:-(?P<gust>\d+))?(?P<dir>[A-Z]+)?`
anchored at the head: speed digits, optional gust, optional direction. -/
def matchWind (cs : Str) : Option (Str × Option Str × Option Str) :=
  let ds := cs.takeWhile Char.isDigit
  let r1 := cs.dropWhile Char.isDigit
  if ds.isEmpty then none
  else
    let gr : Option Str × Str :=
      match r1 with
      | '-' :: r2 =>
        let gs := r2.takeWhile Char.isDigit
        if gs.isEmpty then (none, r1) else (some gs, r2.dropWhile Char.isDigit)
      | _ => (none, r1)
    let us := gr.2.takeWhile isUpperAZ
    some (ds, gr.1, if us.isEmpty then none else some us)

/-- `_WIND_RE.search`: leftmost match. -/
def windSearch : Str → Option (Str × Option Str × Option Str)
  | [] => none
  | c :: rest =>
    match matchWind (c :: rest) with
    | some m => some m
    | none => windSearch rest

/-- `MountainForecastSource._parse_wind`. -/
def mfParseWind (text : Option Str) : MFWind :=
  match text with
  | none => {}
  | some t =>
    if t.isEmpty then {}
    else
      let c1 := replaceStr t [Char.ofNat 0x2013] (str "-")
      let c2 := replaceStr c1 (str "km/h") []
      let c3 := replaceStr c2 (str "KM/H") []
      let c4 := replaceStr c3 (str "Calm") (str "0")
      let c5 := replaceStr c4 (str "calm") (str "0")
      let c6 := replaceStr c5 [Char.ofNat 0xA0] []
      let cleaned := upperStr (replaceStr c6 (str " ") [])
      if cleaned.isEmpty || cleaned == str "0" then
        { speed_ms := some 0, speed_kmh := some 0 }
      else
        match windSearch cleaned with
        | none => {}
        | some (ds, g, dir) =>
          let speedKmh : Rat := (natOfDigits ds : Nat)
          let gustKmh : Option Rat := g.map (fun gs => ((natOfDigits gs : Nat) : Rat))
          { direction := dir
            speed_ms := some (round2 (speedKmh / (36 / 10)))
            speed_kmh := some speedKmh
            gust_ms := gustKmh.map (fun gk => round2 (gk / (36 / 10)))
            gust_kmh := gustKmh }

/-- `MountainForecastSource._normalize_period`: `_PERIOD_MAP` lookup of
the stripped, lower-cased label. -/
def mfNormalizePeriod (label : Str) : Option Period :=
  let cleaned := lowerStr (strip label)
  if cleaned == str "night" then some Period.night
  else if cleaned == str "am" then some Period.morning
  else if cleaned == str "pm" then some Period.afternoon
  else none

/-- Python `a or b` on optional strings (`None` and `""` are falsy). -/
def orStr (a b : Option Str) : Option Str :=
  match a with
  | some s => if s.isEmpty then b else some s
  | none => b

/-- `x or None` on an optional string. -/
def noneIfEmpty (o : Option Str) : Option Str :=
  match o with
  | some s => if s.isEmpty then none else some s
  | none => none

/-- Decimal digits of a natural number. -/
def natStr (n : Nat) : Str := Nat.toDigits 10 n

/-- Least `k ≤ fuel` with `den ∣ 10^k`, found by counting up from `k₀`. -/
def findKAux (den : Nat) : Nat → Nat → Option Nat
  | 0, _ => none
  | fuel + 1, k => if 10 ^ k % den == 0 then some k else findKAux den fuel (k + 1)

/-- Python `repr`/`str` of a float holding an exact decimal value, as
interpolated into the `notes` f-strings (`5.0`, `-3.25`, ...). -/
def ratPyRepr (q : Rat) : Str :=
  let sign : Str := if q < 0 then ['-'] else []
  let n := q.num.natAbs
  let den := q.den
  match findKAux den 40 0 with
  | none => sign ++ natStr n ++ '/' :: natStr den
  | some 0 => sign ++ natStr n ++ str ".0"
  | some k =>
    let mant := n * 10 ^ k / den
    let ds0 := natStr mant
    let ds := if ds0.length ≤ k then List.replicate (k + 1 - ds0.length) '0' ++ ds0 else ds0
    sign ++ ds.take (ds.length - k) ++ '.' :: ds.drop (ds.length - k)

/-- The column-emission loop of `_parse_forecast_table`, recursing over
the aligned (date, time-label) columns while carrying the running column
index used for positional row lookups. -/
def mfEmit (m : Mountain) (d : Date)
    (phrases weather wind snow rain tmax tmin tchill : List (Option Str)) :
    List (Option Str × Option Str) → Nat → List ForecastPeriod × List SummaryCol
  | [], _ => ([], [])
  | (dateStr, timeLabel) :: rest, i =>
    let tailRes := mfEmit m d phrases weather wind snow rain tmax tmin tchill rest (i + 1)
    match dateStr, timeLabel with
    | some ds, some tl =>
      if ds.isEmpty || tl.isEmpty then tailRes
      else
        match mfNormalizePeriod tl with
        | none => tailRes
        | some part =>
          let weatherDesc := noneIfEmpty (orStr (mfValueAt phrases i) (mfValueAt weather i))
          let w := mfParseWind (mfValueAt wind i)
          let snowV := mfParseFloat (mfValueAt snow i)
          let rainV := mfParseFloat (mfValueAt rain i)
          let tmaxV := mfParseFloat (mfValueAt tmax i)
          let tminV := mfParseFloat (mfValueAt tmin i)
          let chillV := mfParseFloat (mfValueAt tchill i)
          let entry : SummaryCol :=
            { date := some ds
              period_label := lowerStr tl
              weather := weatherDesc
              wind_direction := w.direction
              wind_speed_kmh := w.speed_kmh
              wind_speed_ms := w.speed_ms
              wind_gust_kmh := w.gust_kmh
              wind_gust_ms := w.gust_ms
              temperature_max_c := tmaxV
              temperature_min_c := tminV
              temperature_chill_c := chillV
              snowfall_cm := snowV
              rain_mm := rainV }
          if ds == isoDate d then
            let notesParts : List Str :=
              (match rainV with
               | some r => [str "rain_mm=" ++ ratPyRepr r]
               | none => []) ++
              (match chillV with
               | some c => [str "wind_chill_c=" ++ ratPyRepr c]
               | none => [])
            let notes : Option Str :=
              if notesParts.isEmpty then none else some (List.intercalate (str ";") notesParts)
            let p : ForecastPeriod :=
              { mountain_id := m.mountain_id
                source_name := mfSourceName
                target_date := d
                period := part
                snowfall_cm := snowV
                temp_high_c := tmaxV
                temp_low_c := tminV
                wind_speed_ms := w.speed_ms
                wind_gust_ms := w.gust_ms
                wind_dir := w.direction
                weather_desc := weatherDesc
                notes := notes }
            (p :: tailRes.1, entry :: tailRes.2)
          else
            (tailRes.1, entry :: tailRes.2)
    | _, _ => tailRes

/-- `MountainForecastSource._parse_forecast_table`.  The document is the
`select_one("table.forecast-table__table--content")` result. -/
def mfParseForecastTable (doc : Option NamedTable) (m : Mountain) (d : Date) :
    Except PyErr (List ForecastPeriod × List SummaryCol) :=
  match doc with
  | none => Except.ok ([], [])
  | some table =>
    match mfExpandDates table with
    | Except.error e => Except.error e
    | Except.ok dateLabels =>
      let timeLabels := mfRowValues table (str "time")
      if dateLabels.isEmpty || timeLabels.isEmpty then Except.ok ([], [])
      else
        Except.ok
          (mfEmit m d (mfRowValues table (str "phrases")) (mfRowValues table (str "weather"))
            (mfRowValues table (str "wind")) (mfRowValues table (str "snow"))
            (mfRowValues table (str "rain")) (mfRowValues table (str "temperature-max"))
            (mfRowValues table (str "temperature-min"))
            (mfRowValues table (str "temperature-chill"))
            (dateLabels.zip timeLabels) 0)

/-- `MountainForecastSource.build_requests`. -/
def mfBuildRequests (m : Mountain) : Except PyErr (List Str) :=
  match lookupSource m mfSourceName with
  | none => Except.error PyErr.valueErr
  | some u => if u.isEmpty then Except.error PyErr.valueErr else Except.ok [u]

/-- The `units` constant attached to every Mountain-Forecast summary. -/
def mfUnits : List (Str × Str) :=
  [(str "temperature_c", str "degC"), (str "wind_speed_kmh", str "km/h"),
   (str "wind_speed_ms", str "m/s"), (str "rain_mm", str "mm"),
   (str "snowfall_cm", str "cm"), (str "wind_chill_c", str "degC")]

/-- One placeholder period of `_fallback_daily`. -/
def mfPlaceholderPeriod (m : Mountain) (d : Date) (part : Period) : ForecastPeriod :=
  { mountain_id := m.mountain_id
    source_name := mfSourceName
    target_date := d
    period := part
    snowfall_cm := some 0
    snowdepth_cm := some 0
    temp_low_c := some 0
    temp_high_c := some 0
    wind_speed_ms := some 0
    wind_gust_ms := some 0
    wind_dir := some (str "-")
    weather_desc := some (str "-")
    notes := some (str "-") }

/-- One placeholder summary column of `_fallback_daily`. -/
def mfPlaceholderCol (d : Date) (label : Str) : SummaryCol :=
  { date := some (isoDate d)
    period_label := label
    weather := some (str "-")
    wind_direction := some (str "-")
    wind_speed_kmh := some 0
    wind_speed_ms := some 0
    wind_gust_kmh := some 0
    wind_gust_ms := some 0
    temperature_max_c := some 0
    temperature_min_c := some 0
    temperature_chill_c := some 0
    snowfall_cm := some 0
    rain_mm := some 0 }

/-- `MountainForecastSource._fallback_daily`. -/
def mfFallbackDaily (m : Mountain) (d : Date) (fetchedAt : Str) (urls : List Str)
    (reason : Str) : ForecastDaily :=
  { mountain_id := m.mountain_id
    source_name := mfSourceName
    target_date := d
    periods :=
      [mfPlaceholderPeriod m d Period.night, mfPlaceholderPeriod m d Period.morning,
       mfPlaceholderPeriod m d Period.afternoon]
    daily_summary_json :=
      { status := some (str "fallback")
        reason := some reason
        source_urls := urls
        fetched_at := some fetchedAt
        columns :=
          some [mfPlaceholderCol d (str "night"), mfPlaceholderCol d (str "am"),
                mfPlaceholderCol d (str "pm")]
        units := mfUnits } }

/-- The URL loop of `MountainForecastSource.collect`: only a
`RequestException` from the fetch is converted into the fallback daily;
any other exception propagates. -/
def mfCollectGo (env : FetchEnv (Option NamedTable)) (m : Mountain) (d : Date)
    (fetchedAt : Str) :
    List Str → List ForecastPeriod → List SummaryCol → List Str → Except PyErr ForecastDaily
  | [], periods, cols, srcUrls =>
    Except.ok
      { mountain_id := m.mountain_id
        source_name := mfSourceName
        target_date := d
        periods := periods
        daily_summary_json :=
          { columns := some cols
            source_urls := srcUrls
            fetched_at := some fetchedAt
            units := mfUnits } }
  | url :: rest, periods, cols, srcUrls =>
    match fetchWithFallback mfSourceName d env url with
    | Except.error (PyErr.reqErr msg) => Except.ok (mfFallbackDaily m d fetchedAt [url] msg)
    | Except.error e => Except.error e
    | Except.ok doc =>
      match mfParseForecastTable doc m d with
      | Except.error e => Except.error e
      | Except.ok (ps, sc) =>
        mfCollectGo env m d fetchedAt rest (periods ++ ps) (cols ++ sc) (srcUrls ++ [url])

/-- `MountainForecastSource.collect`.  `fetchedAt` stands for the
`datetime.now(timezone.utc).isoformat()` timestamp, an external input. -/
def mfCollect (env : FetchEnv (Option NamedTable)) (m : Mountain) (d : Date)
    (fetchedAt : Str) : Except PyErr ForecastDaily :=
  match mfBuildRequests m with
  | Except.error e => Except.error e
  | Except.ok urls => mfCollectGo env m d fetchedAt urls [] [] []

/-! ## Snow-Forecast source (`sources/snowforecast.py`) -/

def sfSourceName : Str := str "snowforecast"

/-- `SnowForecastSource._row_values`: texts of all `th`/`td` children of
the named row, with the leading (label) cell dropped. -/
def sfRowValues (t : NamedTable) (name : Str) : List Str :=
  match selectRow t name with
  | none => []
  | some cells => (cells.map (fun c => strip c.text)).drop 1

/-- `SnowForecastSource._value_at`: positional lookup, stripped, empty
mapped to `None`. -/
def sfValueAt (values : List Str) (i : Nat) : Option Str :=
  match values.get? i with
  | none => none
  | some v => noneIfEmpty (some (strip v))

/-- `SnowForecastSource._extract_float`. -/
def sfExtractFloat (values : List Str) (i : Nat) : Option Rat :=
  match sfValueAt values i with
  | none => none
  | some t => (numSearch t).map ratOfNumeral

/-- Match `_WIND_COMBINED_RE = (?P<speed>\d+(?:\.\d+)?)(?P<dir>[A-Z]+)?`
anchored at the head. -/
def matchWindSF (cs : Str) : Option (Str × Option Str) :=
  let ds := cs.takeWhile Char.isDigit
  let r1 := cs.dropWhile Char.isDigit
  if ds.isEmpty then none
  else
    let sp : Str × Str :=
      match r1 with
      | '.' :: r2 =>
        let fs := r2.takeWhile Char.isDigit
        if fs.isEmpty then (ds, r1) else (ds ++ '.' :: fs, r2.dropWhile Char.isDigit)
      | _ => (ds, r1)
    let us := sp.2.takeWhile isUpperAZ
    some (sp.1, if us.isEmpty then none else some us)

/-- `_WIND_COMBINED_RE.search`: leftmost match. -/
def windSearchSF : Str → Option (Str × Option Str)
  | [] => none
  | c :: rest =>
    match matchWindSF (c :: rest) with
    | some m => some m
    | none => windSearchSF rest

/-- `SnowForecastSource._parse_wind`: `(speed_ms, direction)`.  Note
there is no special handling of `"Calm"` here — a digit-free cell
yields `(None, None)`. -/
def sfParseWind (values : List Str) (i : Nat) : Option Rat × Option Str :=
  match sfValueAt values i with
  | none => (none, none)
  | some t =>
    match windSearchSF t with
    | none => (none, none)
    | some (sp, dir) => (some (round2 (ratOfNumeral sp / (36 / 10))), dir)

/-- `SnowForecastSource._build_notes`: `rain_mm=` followed by the raw
matched numeral text. -/
def sfBuildNotes (values : List Str) (i : Nat) : Option Str :=
  match sfValueAt values i with
  | none => none
  | some t => (numSearch t).map (fun mtext => str "rain_mm=" ++ mtext)

/-- Python `pat in s` (substring containment). -/
def isSubstr : Str → Str → Bool
  | pat, [] => pat.isEmpty
  | pat, c :: rest => pat.isPrefixOf (c :: rest) || isSubstr pat rest

/-- `re.sub(r"[^a-z ]", " ", s)`. -/
def subNonAlphaSpace (s : Str) : Str :=
  s.map (fun c => if ('a' ≤ c && c ≤ 'z') || c == ' ' then c else ' ')

/-- `str.split()` (on whitespace runs, no empty tokens), with fuel. -/
def splitWSAux : Nat → Str → List Str
  | 0, _ => []
  | fuel + 1, s =>
    match s.dropWhile isSpaceC with
    | [] => []
    | s1 =>
      s1.takeWhile (fun c => !isSpaceC c) ::
        splitWSAux fuel (s1.dropWhile (fun c => !isSpaceC c))

/-- `str.split()`. -/
def splitWS (s : Str) : List Str := splitWSAux s.length s

/-- The English `_PERIOD_MAP` of snowforecast.py. -/
def sfEnglishLookup (tok : Str) : Option Period :=
  if tok == str "morning" || tok == str "am" then some Period.morning
  else if tok == str "afternoon" || tok == str "pm" then some Period.afternoon
  else if tok == str "night" || tok == str "evening" then some Period.night
  else none

/-- `SnowForecastSource._normalize_period`.  The source file's
`_JAPANESE_PERIOD_MAP` literal has been mojibake-corrupted to the keys
`"??"`, `"??"`, `"?"`; the duplicate `"??"` key collapses (last value
wins, first position kept), leaving `"??" ↦ AFTERNOON, "?" ↦ NIGHT`
checked by substring containment against the raw label. -/
def sfNormalizePeriod (label : Option Str) : Option Period :=
  match label with
  | none => none
  | some l =>
    if l.isEmpty then none
    else
      let cleaned := subNonAlphaSpace (lowerStr (strip l))
      match (splitWS cleaned).findSome? sfEnglishLookup with
      | some p => some p
      | none =>
        if isSubstr (str "??") l then some Period.afternoon
        else if isSubstr (str "?") l then some Period.night
        else none

/-- The date-header expansion of `SnowForecastSource._parse_table`
(over all `th`/`td` children of the `days` row), including the drop of
a leading date-less entry. -/
def sfDateSequence (dayCells : List Cell) : Except PyErr (List (Option Str)) :=
  (expandCells dayCells).map
    (fun seq =>
      match seq with
      | none :: rest => rest
      | other => other)

/-- The column loop of `SnowForecastSource._parse_table`. -/
def sfEmit (m : Mountain) (d : Date)
    (phrases wind snow rain tmax tmin : List Str) :
    List (Option Str × Str) → Nat → List ForecastPeriod
  | [], _ => []
  | (dateStr, periodLabel) :: rest, i =>
    let tailRes := sfEmit m d phrases wind snow rain tmax tmin rest (i + 1)
    match dateStr with
    | none => tailRes
    | some ds =>
      if ds.isEmpty then tailRes
      else if ds != isoDate d then tailRes
      else
        match sfNormalizePeriod (some periodLabel) with
        | none => tailRes
        | some pe =>
          let w := sfParseWind wind i
          { mountain_id := m.mountain_id
            source_name := sfSourceName
            target_date := d
            period := pe
            snowfall_cm := sfExtractFloat snow i
            temp_high_c := sfExtractFloat tmax i
            temp_low_c := sfExtractFloat tmin i
            wind_speed_ms := w.1
            wind_dir := w.2
            weather_desc := sfValueAt phrases i
            notes := sfBuildNotes rain i } :: tailRes

/-- `SnowForecastSource.parse` / `_parse_table`.  The document is the
`select_one("table.forecast-table__table--content")` result. -/
def sfParse (doc : Option NamedTable) (m : Mountain) (d : Date) :
    Except PyErr (List ForecastPeriod) :=
  match doc with
  | none => Except.ok []
  | some table =>
    match selectRow table (str "days"), selectRow table (str "time") with
    | some dayCells, some timeCells =>
      match sfDateSequence dayCells with
      | Except.error e => Except.error e
      | Except.ok dateSeq =>
        let periodsRaw := timeCells.map (fun c => strip c.text)
        Except.ok
          (sfEmit m d (sfRowValues table (str "phrases")) (sfRowValues table (str "wind"))
            (sfRowValues table (str "snow")) (sfRowValues table (str "rain"))
            (sfRowValues table (str "temperature-max"))
            (sfRowValues table (str "temperature-min"))
            (dateSeq.zip periodsRaw) 0)
    | _, _ => Except.ok []

/-- `SnowForecastSource.build_requests`. -/
def sfBuildRequests (m : Mountain) : Except PyErr (List Str) :=
  match lookupSource m sfSourceName with
  | none => Except.error PyErr.valueErr
  | some u => if u.isEmpty then Except.error PyErr.valueErr else Except.ok [u]

/-! ## PowderSearch source (`sources/powdersearch.py`) -/

def psSourceName : Str := str "powdersearch"

/-- `_MISSING_MARKERS` of powdersearch.py. -/
def psMissingMarkers : List Str := [str "/", str "-", str "--"]

/-- An hourly table (`table#detail_data`): its body rows of cells. -/
structure PSTable where
  rows : List (List Cell)
deriving DecidableEq, Repr

/-- `PowderSearchSource._cell_text`: ideographic spaces replaced,
stripped. -/
def psCellText (c : Cell) : Str := strip (replaceStr c.text [Char.ofNat 0x3000] (str " "))

/-- Truncation toward zero, `int(float(...))`. -/
def truncRat (q : Rat) : Int := if q < 0 then -((-q).floor) else q.floor

/-- `PowderSearchSource._extract_int`.  (The guarded `float`/`int`
conversions cannot fail on a regex match in the rational model.) -/
def psExtractIntCell (c : Cell) : Option Int :=
  match numSearch (psCellText c) with
  | none => none
  | some mtext => some (truncRat (ratOfNumeral mtext))

/-- `PowderSearchSource._extract_float`: positional, missing markers and
digit-free text map to `None`. -/
def psExtractFloat (cells : List Cell) (i : Nat) : Option Rat :=
  match cells.get? i with
  | none => none
  | some c =>
    let t := psCellText c
    if t.isEmpty || psMissingMarkers.contains t then none
    else (numSearch t).map ratOfNumeral

/-- `PowderSearchSource._parse_float_value`. -/
def psParseFloatValue (t : Str) : Option Rat := (numSearch t).map ratOfNumeral

/-- `PowderSearchSource._parse_wind`: `direction/speed` separated by the
first slash; a slash-free cell is all direction. -/
def psParseWind (cells : List Cell) (i : Nat) : Option Str × Option Rat :=
  match cells.get? i with
  | none => (none, none)
  | some c =>
    let t := psCellText c
    if t.isEmpty || psMissingMarkers.contains t then (none, none)
    else if t.contains '/' then
      let dpart := t.takeWhile (fun ch => ch != '/')
      let spart := (t.dropWhile (fun ch => ch != '/')).drop 1
      (noneIfEmpty (some (strip dpart)), psParseFloatValue spart)
    else
      (noneIfEmpty (some (strip t)), none)

/-- The row loop of `PowderSearchSource._parse_hourly_table`, carrying
the `current_day` governed by the last row-spanning day cell. -/
def psRowsLoop (targetDay : Int) : List (List Cell) → Option Int → List HourEntry
  | [], _ => []
  | row :: rest, cur =>
    match row with
    | [] => psRowsLoop targetDay rest cur
    | first :: _ =>
      if first.isTh then psRowsLoop targetDay rest cur
      else if row.length == 1 && first.colspanAttr.isSome then psRowsLoop targetDay rest cur
      else
        let st : Option Int × List Cell :=
          if first.hasRowspan then (psExtractIntCell first, row.drop 1) else (cur, row)
        if st.1 != some targetDay then psRowsLoop targetDay rest st.1
        else
          match st.2 with
          | [] => psRowsLoop targetDay rest st.1
          | hc :: _ =>
            match psExtractIntCell hc with
            | none => psRowsLoop targetDay rest st.1
            | some hourV =>
              { hour := hourV
                temperature_c := psExtractFloat st.2 1
                precipitation_mm := psExtractFloat st.2 2
                wind_direction := (psParseWind st.2 3).1
                wind_speed_ms := (psParseWind st.2 3).2
                sunshine_hours := psExtractFloat st.2 4
                snow_depth_cm := psExtractFloat st.2 5
                snowfall_cm := psExtractFloat st.2 6 } :: psRowsLoop targetDay rest st.1

/-- `PowderSearchSource._parse_hourly_table`.  The document is the
`select_one("table#detail_data")` result (body flattening is tree
plumbing). -/
def psParseHourlyTable (doc : Option PSTable) (d : Date) : List HourEntry :=
  match doc with
  | none => []
  | some t => psRowsLoop (d.day : Int) t.rows none

/-- `PowderSearchSource.build_requests`. -/
def psBuildRequests (m : Mountain) : Except PyErr (List Str) :=
  match lookupSource m psSourceName with
  | none => Except.error PyErr.valueErr
  | some u => if u.isEmpty then Except.error PyErr.valueErr else Except.ok [u]

/-- The `units` constant of PowderSearch's summary. -/
def psUnits : List (Str × Str) :=
  [(str "temperature_c", str "degC"), (str "precipitation_mm", str "mm"),
   (str "wind_speed_ms", str "m/s"), (str "sunshine_hours", str "hours"),
   (str "snow_depth_cm", str "cm"), (str "snowfall_cm", str "cm")]

/-- Ascending-by-hour comparison used for the final sort. -/
def hourLe (a b : HourEntry) : Bool := decide (a.hour ≤ b.hour)

/-- The URL loop of `PowderSearchSource.collect` (no exception
handling: a fetch failure propagates). -/
def psCollectGo (env : FetchEnv (Option PSTable)) (m : Mountain) (d : Date)
    (fetchedAt : Str) :
    List Str → List HourEntry → List Str → Except PyErr ForecastDaily
  | [], hours, srcUrls =>
    Except.ok
      { mountain_id := m.mountain_id
        source_name := psSourceName
        target_date := d
        periods := []
        daily_summary_json :=
          { hours := some (hours.mergeSort hourLe)
            source_urls := srcUrls
            fetched_at := some fetchedAt
            units := psUnits } }
  | url :: rest, hours, srcUrls =>
    match fetchWithFallback psSourceName d env url with
    | Except.error e => Except.error e
    | Except.ok doc =>
      psCollectGo env m d fetchedAt rest (hours ++ psParseHourlyTable doc d) (srcUrls ++ [url])

/-- `PowderSearchSource.collect`. -/
def psCollect (env : FetchEnv (Option PSTable)) (m : Mountain) (d : Date)
    (fetchedAt : Str) : Except PyErr ForecastDaily :=
  match psBuildRequests m with
  | Except.error e => Except.error e
  | Except.ok urls => psCollectGo env m d fetchedAt urls [] []

/-! ## Local-file text decoding (`BaseSource._load_local_text`)

`_load_local_text` reads raw bytes and tries `utf-8`, `utf-8-sig`,
`cp932`, `shift_jis` in order, falling back to a lossy
`utf-8`/`errors="replace"` decode.  UTF-8 is modelled in full; for the
two Shift-JIS-family codecs the byte-validity structure (which inputs
decode at all) is modelled exactly, while the JIS X 0208 character
table itself — an external codec detail no claim depends on — is
represented by an injective arithmetic placeholder into the CJK
plane. -/

/-- One strict UTF-8 scalar: the decoded char and the remaining bytes. -/
def utf8DecodeOne : List Nat → Option (Char × List Nat)
  | [] => none
  | b :: rest =>
    if b ≤ 0x7F then some (Char.ofNat b, rest)
    else if 0xC2 ≤ b && b ≤ 0xDF then
      match rest with
      | b2 :: r2 =>
        if 0x80 ≤ b2 && b2 ≤ 0xBF then some (Char.ofNat ((b - 0xC0) * 64 + (b2 - 0x80)), r2)
        else none
      | _ => none
    else if 0xE0 ≤ b && b ≤ 0xEF then
      match rest with
      | b2 :: b3 :: r3 =>
        if (0x80 ≤ b2 && b2 ≤ 0xBF) && (0x80 ≤ b3 && b3 ≤ 0xBF) then
          let cp := (b - 0xE0) * 4096 + (b2 - 0x80) * 64 + (b3 - 0x80)
          if cp < 0x800 || (0xD800 ≤ cp && cp ≤ 0xDFFF) then none
          else some (Char.ofNat cp, r3)
        else none
      | _ => none
    else if 0xF0 ≤ b && b ≤ 0xF4 then
      match rest with
      | b2 :: b3 :: b4 :: r4 =>
        if (0x80 ≤ b2 && b2 ≤ 0xBF) && (0x80 ≤ b3 && b3 ≤ 0xBF) && (0x80 ≤ b4 && b4 ≤ 0xBF) then
          let cp := (b - 0xF0) * 262144 + (b2 - 0x80) * 4096 + (b3 - 0x80) * 64 + (b4 - 0x80)
          if cp < 0x10000 || cp > 0x10FFFF then none
          else some (Char.ofNat cp, r4)
        else none
      | _ => none
    else none

/-- Strict `bytes.decode("utf-8")`, with fuel (one unit per scalar). -/
def utf8DecodeAux : Nat → List Nat → Option Str
  | _, [] => some []
  | 0, _ => none
  | fuel + 1, bs =>
    match utf8DecodeOne bs with
    | some (c, rest) => (utf8DecodeAux fuel rest).map (c :: ·)
    | none => none

/-- Strict `bytes.decode("utf-8")`. -/
def utf8Decode (bs : List Nat) : Option Str := utf8DecodeAux bs.length bs

/-- `bytes.decode("utf-8-sig")`: a leading BOM is stripped. -/
def utf8SigDecode (bs : List Nat) : Option Str :=
  match bs with
  | 0xEF :: 0xBB :: 0xBF :: rest => utf8Decode rest
  | other => utf8Decode other

/-- Placeholder character for a valid two-byte Shift-JIS pair (the real
JIS table is external to the repository; injectivity of the pair is
preserved). -/
def jisChar (lead trail : Nat) : Char := Char.ofNat (0x4E00 + (lead * 256 + trail) % 20480)

/-- One scalar of a Shift-JIS-family codec with the given valid lead
ranges. -/
def sjisDecodeOne (leadOk : Nat → Bool) : List Nat → Option (Char × List Nat)
  | [] => none
  | b :: rest =>
    if b ≤ 0x7F then some (Char.ofNat b, rest)
    else if 0xA1 ≤ b && b ≤ 0xDF then some (Char.ofNat (0xFF61 + (b - 0xA1)), rest)
    else if leadOk b then
      match rest with
      | b2 :: r2 =>
        if (0x40 ≤ b2 && b2 ≤ 0x7E) || (0x80 ≤ b2 && b2 ≤ 0xFC) then some (jisChar b b2, r2)
        else none
      | _ => none
    else none

/-- Decode a whole byte string with the given one-scalar codec. -/
def codecDecodeAux (one : List Nat → Option (Char × List Nat)) : Nat → List Nat → Option Str
  | _, [] => some []
  | 0, _ => none
  | fuel + 1, bs =>
    match one bs with
    | some (c, rest) => (codecDecodeAux one fuel rest).map (c :: ·)
    | none => none

/-- `bytes.decode("cp932")` (lead bytes `0x81–0x9F`, `0xE0–0xFC`). -/
def cp932Decode (bs : List Nat) : Option Str :=
  codecDecodeAux (sjisDecodeOne (fun b => (0x81 ≤ b && b ≤ 0x9F) || (0xE0 ≤ b && b ≤ 0xFC)))
    bs.length bs

/-- `bytes.decode("shift_jis")` (lead bytes `0x81–0x9F`, `0xE0–0xEF`). -/
def shiftJisDecode (bs : List Nat) : Option Str :=
  codecDecodeAux (sjisDecodeOne (fun b => (0x81 ≤ b && b ≤ 0x9F) || (0xE0 ≤ b && b ≤ 0xEF)))
    bs.length bs

/-- `bytes.decode("utf-8", errors="replace")`: on an invalid position,
emit U+FFFD, skip one byte and resume.  Total by construction. -/
def utf8LossyAux : Nat → List Nat → Str
  | _, [] => []
  | 0, _ => []
  | fuel + 1, b :: rest =>
    match utf8DecodeOne (b :: rest) with
    | some (c, r) => c :: utf8LossyAux fuel r
    | none => Char.ofNat 0xFFFD :: utf8LossyAux fuel rest

/-- Lossy UTF-8 decode. -/
def utf8Lossy (bs : List Nat) : Str := utf8LossyAux bs.length bs

/-- `BaseSource._load_local_text`: the ordered decoder chain.  Every
branch returns `Except.ok` because the last decoder is lossy — the
function cannot raise on any byte content. -/
def loadLocalTextE (bs : List Nat) : Except PyErr Str :=
  match utf8Decode bs with
  | some s => Except.ok s
  | none =>
    match utf8SigDecode bs with
    | some s => Except.ok s
    | none =>
      match cp932Decode bs with
      | some s => Except.ok s
      | none =>
        match shiftJisDecode bs with
        | some s => Except.ok s
        | none => Except.ok (utf8Lossy bs)

example : str "ab" = ['a', 'b'] := by decide
example :
    mfParseWind (some (str "20-30NW")) =
      { direction := some (str "NW"), speed_ms := some (139 / 25), speed_kmh := some 20,
        gust_ms := some (833 / 100), gust_kmh := some 30 } := by decide
example : mfParseWind (some (str "Calm")) = { speed_ms := some 0, speed_kmh := some 0 } := by
  decide
example : sfParseWind [str "Calm"] 0 = (none, none) := by decide
example : sfNormalizePeriod (some (str " AM ")) = some Period.morning := by decide
example : isoDate ⟨2025, 6, 2⟩ = str "2025-06-02" := by decide

/-! ## Claim C5: `parseWind("20-30NW")` -/

/-- C5: `parseWind` applied to `"20-30NW"` yields direction `"NW"`, a
speed of 20 km/h converted to m/s by dividing by 3.6 and rounding to
2 decimal places (5.56), and a gust of 30 km/h likewise converted
(8.33). -/
theorem c5_parseWind_20_30NW :
    mfParseWind (some (str "20-30NW")) =
      { direction := some (str "NW")
        speed_ms := some (556 / 100)
        speed_kmh := some 20
        gust_ms := some (833 / 100)
        gust_kmh := some 30 } ∧
    (556 : Rat) / 100 = round2 (20 / (36 / 10)) ∧
    (833 : Rat) / 100 = round2 (30 / (36 / 10)) := by decide

/-! ## Claim C6: `parseWind("Calm")` / `parseWind("calm")` -/

/-- C6 counterexample: the claim asserts a parsed speed of `0.0` m/s
for `"Calm"`, but `SnowForecastSource._parse_wind` — one of the two
functions the claim covers — yields no speed at all (its regex needs a
digit and `"Calm"` has none). -/
theorem c6_counterexample : ¬ (sfParseWind [str "Calm"] 0).1 = some 0 := by decide

/-- C6 (amended): Mountain-Forecast's `_parse_wind` normalizes `"Calm"`
and `"calm"` to direction none, speed 0.0 m/s and 0.0 km/h, and no
gust; Snow-Forecast's `_parse_wind` instead yields no speed and no
direction for both spellings. -/
theorem c6_parseWind_calm :
    mfParseWind (some (str "Calm")) =
      { direction := none, speed_ms := some 0, speed_kmh := some 0,
        gust_ms := none, gust_kmh := none } ∧
    mfParseWind (some (str "calm")) =
      { direction := none, speed_ms := some 0, speed_kmh := some 0,
        gust_ms := none, gust_kmh := none } ∧
    sfParseWind [str "Calm"] 0 = (none, none) ∧
    sfParseWind [str "calm"] 0 = (none, none) := by decide

/-! ## Claim C10: local URLs bypass network and fallback -/

/-- C10: for a URL whose scheme is empty or `file`, both `fetch_text`
and `_fetch_with_fallback` just read the resolved local file — the
result depends only on that file (never on the live response, the
offline flag or the sample), a missing file surfaces as the raised
`OSError` even when the offline flag is set, and decoding an existing
file never fails because the decoder chain ends in a lossy decode. -/
theorem c10_local_urls {α : Type} (env : FetchEnv α) (srcName : Str) (d : Date) (u : Str)
    (hloc : isLocalUrl u = true) :
    (fetchText env u =
      match env.localFile with
      | some a => Except.ok a
      | none => Except.error PyErr.osErr) ∧
    (fetchWithFallback srcName d env u =
      match env.localFile with
      | some a => Except.ok a
      | none => Except.error PyErr.osErr) ∧
    (∀ bs : List Nat, ∃ s, loadLocalTextE bs = Except.ok s) := by
  refine ⟨by simp [fetchText, hloc], by simp [fetchWithFallback, hloc], ?_⟩
  intro bs
  unfold loadLocalTextE
  repeat' split
  all_goals exact ⟨_, rfl⟩

/-- Environment for the C10 witness: offline flag set, sample present,
live fetch failing, and no file behind the local URL. -/
def c10env : FetchEnv Str :=
  { offlineFlag := some (str "1")
    sample := some (str "SAMPLE")
    live := Except.error (str "net down")
    localFile := none }

/-- C10 witness: a `file://` URL with a missing file raises `OSError`
despite the offline flag being set and a sample existing. -/
theorem c10_witness :
    fetchText c10env (str "file:///tmp/x.html") = Except.error PyErr.osErr ∧
    fetchWithFallback mfSourceName ⟨2025, 1, 2⟩ c10env (str "file:///tmp/x.html") =
      Except.error PyErr.osErr ∧
    loadLocalTextE [0xFF] = Except.ok [Char.ofNat 0xFFFD] := by
  have h := c10_local_urls c10env mfSourceName ⟨2025, 1, 2⟩ (str "file:///tmp/x.html")
    (by decide)
  exact ⟨h.1, h.2.1, by decide⟩

/-! ## Claim C2: the offline-fallback policy for non-local URLs -/

/-- C2: when live retrieval of a non-local URL fails: with the offline
flag set, the deterministic sample path is `{dir}/{source}_{date}.html`;
if the sample file exists its text is returned as if fetched live; if
it does not, the call fails with a `RuntimeError` naming that path; with
the flag unset, the original retrieval error propagates unchanged. -/
theorem c2_offline_policy {α : Type} (env : FetchEnv α) (srcName : Str) (d : Date) (u e : Str)
    (hloc : isLocalUrl u = false) (hlive : env.live = Except.error e) :
    (isTruthy env.offlineFlag = true →
      offlineSamplePath srcName d env =
        some ((env.offlineDir.getD (str "local_samples")) ++
          '/' :: (srcName ++ '_' :: isoDate d ++ str ".html"))) ∧
    (∀ t, isTruthy env.offlineFlag = true → env.sample = some t →
      fetchWithFallback srcName d env u = Except.ok t) ∧
    (isTruthy env.offlineFlag = true → env.sample = none →
      fetchWithFallback srcName d env u =
        Except.error (PyErr.runtimeErr (offlineMissingMsg u (samplePath srcName d env)))) ∧
    (isTruthy env.offlineFlag = false →
      fetchWithFallback srcName d env u = Except.error (PyErr.reqErr e)) := by
  refine ⟨?_, ?_, ?_, ?_⟩ <;> intros <;>
    simp_all [fetchWithFallback, offlineSamplePath, samplePath, hloc, hlive]

/-- Environment for the C2 witness. -/
def c2env : FetchEnv Str :=
  { offlineFlag := some (str "1")
    sample := some (str "SAMPLE")
    live := Except.error (str "net down") }

/-- C2 witness: offline flag set and sample present, so the failed live
fetch is answered with the sample text. -/
theorem c2_witness :
    fetchWithFallback mfSourceName ⟨2025, 1, 2⟩ c2env (str "https://example.com/a") =
      Except.ok (str "SAMPLE") :=
  (c2_offline_policy c2env mfSourceName ⟨2025, 1, 2⟩ (str "https://example.com/a")
    (str "net down") (by decide) rfl).2.1 (str "SAMPLE") (by decide) rfl

/-! ## Claim C1: Mountain-Forecast's placeholder-on-error `collect` -/

/-- Mountain and environment for the C1 counterexample: offline mode
on, sample file absent, live fetch failing. -/
def c1m : Mountain :=
  { mountain_id := str "mtn"
    sources := [(str "mountainforecast", str "https://example.com/f")] }

def c1env : FetchEnv (Option NamedTable) :=
  { offlineFlag := some (str "1")
    live := Except.error (str "boom") }

/-- C1 counterexample: with the offline flag set and the sample file
absent, the fetch of the sole configured URL fails and
`MountainForecastSource.collect` *does* propagate the failure (as the
`RuntimeError` of `_fetch_with_fallback`, which its
`except requests.RequestException` does not catch) instead of
returning the three-period placeholder record. -/
theorem c1_counterexample :
    c1env.live = Except.error (str "boom") ∧
    mfCollect c1env c1m ⟨2025, 12, 20⟩ (str "T") =
      Except.error
        (PyErr.runtimeErr
          (offlineMissingMsg (str "https://example.com/f")
            (samplePath mfSourceName ⟨2025, 12, 20⟩ c1env))) := by decide

/-- C1 (amended): whenever the fetch of the sole configured URL fails
with a retrieval error that the offline policy does not intercept
(offline flag unset, so the `RequestException` reaches `collect`),
`collect` does not propagate it: it returns a `ForecastDaily` with
exactly the three placeholder periods (night, morning, afternoon) whose
numeric fields are all `0.0` and whose `wind_dir`, `weather_desc` and
`notes` are `"-"`, with an auxiliary summary tagged `status="fallback"`
carrying the failure reason.  (With the offline flag set, a missing
sample instead raises a `RuntimeError` that propagates.) -/
theorem c1_fallback_daily (env : FetchEnv (Option NamedTable)) (m : Mountain) (d : Date)
    (fetchedAt url msg : Str)
    (hurl : lookupSource m mfSourceName = some url) (hne : url.isEmpty = false)
    (hloc : isLocalUrl url = false) (hflag : isTruthy env.offlineFlag = false)
    (hlive : env.live = Except.error msg) :
    mfCollect env m d fetchedAt =
      Except.ok
        { mountain_id := m.mountain_id
          source_name := mfSourceName
          target_date := d
          periods :=
            [{ mountain_id := m.mountain_id, source_name := mfSourceName, target_date := d,
               period := Period.night, snowfall_cm := some 0, snowdepth_cm := some 0,
               temp_low_c := some 0, temp_high_c := some 0, wind_speed_ms := some 0,
               wind_gust_ms := some 0, wind_dir := some (str "-"),
               weather_desc := some (str "-"), notes := some (str "-") },
             { mountain_id := m.mountain_id, source_name := mfSourceName, target_date := d,
               period := Period.morning, snowfall_cm := some 0, snowdepth_cm := some 0,
               temp_low_c := some 0, temp_high_c := some 0, wind_speed_ms := some 0,
               wind_gust_ms := some 0, wind_dir := some (str "-"),
               weather_desc := some (str "-"), notes := some (str "-") },
             { mountain_id := m.mountain_id, source_name := mfSourceName, target_date := d,
               period := Period.afternoon, snowfall_cm := some 0, snowdepth_cm := some 0,
               temp_low_c := some 0, temp_high_c := some 0, wind_speed_ms := some 0,
               wind_gust_ms := some 0, wind_dir := some (str "-"),
               weather_desc := some (str "-"), notes := some (str "-") }]
          daily_summary_json :=
            { status := some (str "fallback")
              reason := some msg
              source_urls := [url]
              fetched_at := some fetchedAt
              columns :=
                some [mfPlaceholderCol d (str "night"), mfPlaceholderCol d (str "am"),
                      mfPlaceholderCol d (str "pm")]
              units := mfUnits } } := by
  simp [mfCollect, mfBuildRequests, hurl, hne, mfCollectGo, fetchWithFallback, hloc, hlive,
    offlineSamplePath, hflag, mfFallbackDaily, mfPlaceholderPeriod]

/-- Mountain and environment for the C1 witness: offline flag unset,
live fetch failing. -/
def c1wenv : FetchEnv (Option NamedTable) := { live := Except.error (str "timeout") }

/-- C1 witness: the amended theorem applied at a concrete failing
fetch, checking the period values and the fallback tag. -/
theorem c1_witness :
    ∃ daily, mfCollect c1wenv c1m ⟨2025, 12, 20⟩ (str "T") = Except.ok daily ∧
      daily.periods.map (fun p => p.period) =
        [Period.night, Period.morning, Period.afternoon] ∧
      daily.periods.map (fun p => p.wind_dir) =
        [some (str "-"), some (str "-"), some (str "-")] ∧
      daily.periods.map (fun p => p.snowfall_cm) = [some 0, some 0, some 0] ∧
      daily.daily_summary_json.status = some (str "fallback") ∧
      daily.daily_summary_json.reason = some (str "timeout") := by
  have h := c1_fallback_daily c1wenv c1m ⟨2025, 12, 20⟩ (str "T")
    (str "https://example.com/f") (str "timeout") (by decide) (by decide) (by decide)
    (by decide) rfl
  exact ⟨_, h, by decide, by decide, by decide, by decide, by decide⟩

/-! ## Claim C7: column-span expansion of the date header -/

/-- The claim's reading of one column of the expansion: each header
cell contributes its date replicated span-many times. -/
def expandSpec (spans : Cell → Nat) : List Cell → List (Option Str)
  | [] => []
  | c :: rest => List.replicate (spans c) c.dataDate ++ expandSpec spans rest

/-- The claim's "sum of the cells' spans (with unset spans counted as
1)". -/
def spanSum (cells : List Cell) : Nat :=
  (cells.map (fun c =>
    match c.colspanAttr with
    | none => 1
    | some s => ((parseIntStr s).getD 1).toNat)).sum

/-- Day-header cells for the C7 counterexample: a leading label cell
with no date and no span, then a dated cell spanning 2 columns. -/
def c7cells : List Cell :=
  [{ text := str "Day" },
   { dataDate := some (str "2025-06-02"), colspanAttr := some (str "2") }]

/-- C7 counterexample: Snow-Forecast's column-to-date mapping drops a
leading date-less entry, so the span-less first cell contributes zero
entries (not one) and the mapping length is 2, not the span sum 3. -/
theorem c7_counterexample :
    sfDateSequence c7cells =
      Except.ok [some (str "2025-06-02"), some (str "2025-06-02")] ∧
    spanSum c7cells = 3 ∧
    ¬ (([some (str "2025-06-02"), some (str "2025-06-02")] : List (Option Str)).length =
        spanSum c7cells) := by decide

/-- `expandCells` agrees with the per-cell replication reading when all
spans are valid. -/
theorem expandCells_eq (spans : Cell → Nat) : ∀ cells : List Cell,
    (∀ c ∈ cells, colspanOf c = Except.ok (spans c : Int)) →
    expandCells cells = Except.ok (expandSpec spans cells)
  | [], _ => rfl
  | c :: rest, h => by
    have hc := h c (by simp)
    have hrest := expandCells_eq spans rest (fun x hx => h x (by simp [hx]))
    simp [expandCells, hc, hrest, expandSpec, Except.map]

/-- The expansion's length is the sum of the spans. -/
theorem expandSpec_length (spans : Cell → Nat) : ∀ cells : List Cell,
    (expandSpec spans cells).length = (cells.map spans).sum
  | [] => rfl
  | c :: rest => by simp [expandSpec, expandSpec_length spans rest]

/-- C7 (amended): in the date-header expansion, a header cell carrying
date d and span n contributes exactly n consecutive entries equal to d
(one entry when the span attribute is unset), and the expansion length
is the sum of the spans; Snow-Forecast's parser afterwards drops one
leading entry when the first expanded entry carries no date, so its
final mapping is that expansion minus such a leading entry. -/
theorem c7_expansion (cells : List Cell) (spans : Cell → Nat)
    (h : ∀ c ∈ cells, colspanOf c = Except.ok (spans c : Int)) :
    expandCells cells = Except.ok (expandSpec spans cells) ∧
    (expandSpec spans cells).length = (cells.map spans).sum ∧
    sfDateSequence cells =
      Except.ok
        (match expandSpec spans cells with
         | none :: rest => rest
         | other => other) :=
  ⟨expandCells_eq spans cells h, expandSpec_length spans cells,
    by simp [sfDateSequence, expandCells_eq spans cells h, Except.map]⟩

/-- Day-header cells for the C7 witness: `colspan=3`,
`data-date="2025-06-02"`. -/
def c7wcells : List Cell :=
  [{ dataDate := some (str "2025-06-02"), colspanAttr := some (str "3") }]

/-- C7 witness: the amended expansion theorem at a concrete
3-spanning dated header cell. -/
theorem c7_witness :
    expandCells c7wcells = Except.ok (expandSpec (fun _ => 3) c7wcells) ∧
    (expandSpec (fun _ => 3) c7wcells).length = (c7wcells.map (fun _ => 3)).sum ∧
    sfDateSequence c7wcells =
      Except.ok
        (match expandSpec (fun _ => 3) c7wcells with
         | none :: rest => rest
         | other => other) :=
  c7_expansion c7wcells (fun _ => 3) (by decide)

/-! ## Claim C8: parse leniency -/

/-- A `colspan` attribute `int()` accepts (or an absent/empty one). -/
def colspanValid (c : Cell) : Bool :=
  match c.colspanAttr with
  | none => true
  | some s => s.isEmpty || (parseIntStr s).isSome

/-- The day-header cells Mountain-Forecast expands. -/
def mfDaysCells (t : NamedTable) : List Cell :=
  match selectRow t (str "days") with
  | none => []
  | some cs => cs.filter (fun c => !c.isTh)

/-- The day-header cells Snow-Forecast expands. -/
def sfDayCells (t : NamedTable) : List Cell := (selectRow t (str "days")).getD []

/-- Mountain for the C8 counterexample (the parsers ignore it). -/
def c8m : Mountain := { mountain_id := str "m8" }

/-- Document for the C8 counterexample: a well-formed grid except that
the day header carries `colspan="x"`. -/
def c8doc : NamedTable :=
  ⟨[(str "days", [{ dataDate := some (str "2025-06-02"), colspanAttr := some (str "x") }]),
    (str "time", [{ text := str "AM" }])]⟩

/-- C8 counterexample: on a document whose date-header cell has the
non-numeric span attribute `"x"`, `int()` raises `ValueError` inside
`_expand_dates`, so both grid parsers raise instead of degrading. -/
theorem c8_counterexample :
    mfParseForecastTable (some c8doc) c8m ⟨2025, 6, 2⟩ = Except.error PyErr.valueErr ∧
    sfParse (some c8doc) c8m ⟨2025, 6, 2⟩ = Except.error PyErr.valueErr := by decide

/-- C8 (amended): the parse operation of every provider never raises —
a missing table yields an empty result, an absent row makes every
positional lookup absent — provided every `colspan` attribute in the
date-header row is absent, empty, or a valid integer literal; a
non-numeric span attribute raises `ValueError` out of `int()`. -/
theorem c8_parse_leniency :
    (∀ m d, mfParseForecastTable none m d = Except.ok ([], [])) ∧
    (∀ m d, sfParse none m d = Except.ok []) ∧
    (∀ d, psParseHourlyTable none d = []) ∧
    (∀ i, mfValueAt [] i = none ∧ sfValueAt [] i = none) ∧
    (∀ t m d, (mfDaysCells t).all colspanValid = true →
      ∃ r, mfParseForecastTable (some t) m d = Except.ok r) ∧
    (∀ t m d, (sfDayCells t).all colspanValid = true →
      ∃ r, sfParse (some t) m d = Except.ok r) := by
  have hcell : ∀ c : Cell, colspanValid c = true → ∃ n, colspanOf c = Except.ok n := by
    intro c hv
    rcases hattr : c.colspanAttr with _ | s
    · exact ⟨1, by simp [colspanOf, hattr]⟩
    · simp only [colspanValid, hattr] at hv
      by_cases hse : s.isEmpty = true
      · exact ⟨1, by simp [colspanOf, hattr, hse]⟩
      · have hv2 : (parseIntStr s).isSome = true := by
          simp [hse] at hv; exact hv
        obtain ⟨n, hn⟩ := Option.isSome_iff_exists.mp hv2
        exact ⟨n, by simp [colspanOf, hattr, hse, hn]⟩
  have hok : ∀ cells : List Cell, cells.all colspanValid = true →
      ∃ l, expandCells cells = Except.ok l := by
    intro cells h
    induction cells with
    | nil => exact ⟨[], rfl⟩
    | cons c rest ih =>
      simp only [List.all_cons, Bool.and_eq_true] at h
      obtain ⟨l, hl⟩ := ih h.2
      obtain ⟨n, hn⟩ := hcell c h.1
      exact ⟨List.replicate n.toNat c.dataDate ++ l,
        by simp [expandCells, hn, hl, Except.map]⟩
  refine ⟨fun m d => rfl, fun m d => rfl, fun d => rfl,
    fun i => ⟨by simp [mfValueAt], by simp [sfValueAt]⟩, ?_, ?_⟩
  · intro t m d h
    have hexp : ∃ l, mfExpandDates t = Except.ok l := by
      rcases hrow : selectRow t (str "days") with _ | cs
      · exact ⟨[], by simp [mfExpandDates, hrow]⟩
      · have h2 : (cs.filter (fun c => !c.isTh)).all colspanValid = true := by
          simpa [mfDaysCells, hrow] using h
        obtain ⟨l, hl⟩ := hok _ h2
        exact ⟨l, by simp [mfExpandDates, hrow, hl]⟩
    obtain ⟨l, hl⟩ := hexp
    simp only [mfParseForecastTable, hl]
    split
    · exact ⟨_, rfl⟩
    · exact ⟨_, rfl⟩
  · intro t m d h
    rcases hd : selectRow t (str "days") with _ | dayCells
    · exact ⟨[], by simp [sfParse, hd]⟩
    · rcases ht : selectRow t (str "time") with _ | timeCells
      · exact ⟨[], by simp [sfParse, hd, ht]⟩
      · have h2 : dayCells.all colspanValid = true := by
          simpa [sfDayCells, hd] using h
        obtain ⟨l, hl⟩ := hok _ h2
        have hr : sfParse (some t) m d =
            Except.ok
              (sfEmit m d (sfRowValues t (str "phrases")) (sfRowValues t (str "wind"))
                (sfRowValues t (str "snow")) (sfRowValues t (str "rain"))
                (sfRowValues t (str "temperature-max")) (sfRowValues t (str "temperature-min"))
                ((match l with
                  | none :: rest => rest
                  | other => other).zip (List.map (fun c : Cell => strip c.text) timeCells))
                0) := by
          simp [sfParse, hd, ht, sfDateSequence, hl, Except.map]
        exact ⟨_, hr⟩

/-- Document for the C8 witness: date header with `colspan="2"` over
two `am` columns. -/
def c8wdoc : NamedTable :=
  ⟨[(str "days", [{ dataDate := some (str "2025-06-02"), colspanAttr := some (str "2") }]),
    (str "time", [{ text := str "AM" }, { text := str "PM" }])]⟩

/-- C8 witness: the leniency theorem at a concrete well-formed table. -/
theorem c8_witness :
    ∃ r, mfParseForecastTable (some c8wdoc) c8m ⟨2025, 6, 2⟩ = Except.ok r :=
  c8_parse_leniency.2.2.2.2.1 c8wdoc c8m ⟨2025, 6, 2⟩ (by decide)

/-! ## Claim C3: period uniqueness within a `ForecastDaily` -/

/-- The (date, period) keys the aligned Mountain-Forecast columns
resolve to (blank or non-normalizing columns are skipped), independent
of any data row. -/
def mfColumnKeys : List (Option Str × Option Str) → List (Str × Period)
  | [] => []
  | (dateStr, timeLabel) :: rest =>
    match dateStr, timeLabel with
    | some ds, some tl =>
      if ds.isEmpty || tl.isEmpty then mfColumnKeys rest
      else
        match mfNormalizePeriod tl with
        | none => mfColumnKeys rest
        | some pe => (ds, pe) :: mfColumnKeys rest
    | _, _ => mfColumnKeys rest

/-- The period values of the keys dated at the target date. -/
def mfTargetPeriodsOfKeys (d : Date) (keys : List (Str × Period)) : List Period :=
  keys.filterMap (fun k => if k.1 == isoDate d then some k.2 else none)

/-- The period values the Mountain-Forecast parser will emit for the
target date, read off the date/time header alone. -/
def mfTargetKeys (doc : Option NamedTable) (d : Date) : List Period :=
  match doc with
  | none => []
  | some table =>
    match mfExpandDates table with
    | Except.error _ => []
    | Except.ok dateLabels =>
      let timeLabels := mfRowValues table (str "time")
      if dateLabels.isEmpty || timeLabels.isEmpty then []
      else mfTargetPeriodsOfKeys d (mfColumnKeys (dateLabels.zip timeLabels))

/-- The period values the Snow-Forecast column loop emits, read off the
aligned (date, label) columns alone. -/
def sfTargetPeriodsOfCols (d : Date) : List (Option Str × Str) → List Period
  | [] => []
  | (dateStr, lbl) :: rest =>
    match dateStr with
    | none => sfTargetPeriodsOfCols d rest
    | some ds =>
      if ds.isEmpty then sfTargetPeriodsOfCols d rest
      else if ds != isoDate d then sfTargetPeriodsOfCols d rest
      else
        match sfNormalizePeriod (some lbl) with
        | none => sfTargetPeriodsOfCols d rest
        | some pe => pe :: sfTargetPeriodsOfCols d rest

/-- The period values the Snow-Forecast parser will emit for the target
date, read off the date/time header alone. -/
def sfTargetKeys (doc : Option NamedTable) (d : Date) : List Period :=
  match doc with
  | none => []
  | some table =>
    match selectRow table (str "days"), selectRow table (str "time") with
    | some dayCells, some timeCells =>
      match sfDateSequence dayCells with
      | Except.error _ => []
      | Except.ok dateSeq =>
        sfTargetPeriodsOfCols d
          (dateSeq.zip (List.map (fun c : Cell => strip c.text) timeCells))
    | _, _ => []

/-- The periods `mfEmit` produces are exactly the target-dated column
keys — the data rows cannot add or remove periods. -/
theorem mfEmit_periods (m : Mountain) (d : Date)
    (phrases weather wind snow rain tmax tmin tchill : List (Option Str)) :
    ∀ (cols : List (Option Str × Option Str)) (i : Nat),
      (mfEmit m d phrases weather wind snow rain tmax tmin tchill cols i).1.map
        (fun p => p.period) = mfTargetPeriodsOfKeys d (mfColumnKeys cols)
  | [], _ => rfl
  | (dateStr, timeLabel) :: rest, i => by
    have ih := mfEmit_periods m d phrases weather wind snow rain tmax tmin tchill rest (i + 1)
    rcases dateStr with _ | ds
    · simpa [mfEmit, mfColumnKeys] using ih
    · rcases timeLabel with _ | tl
      · simpa [mfEmit, mfColumnKeys] using ih
      · by_cases he : (ds.isEmpty || tl.isEmpty) = true
        · simpa [mfEmit, mfColumnKeys, he] using ih
        · rcases hn : mfNormalizePeriod tl with _ | pe
          · simpa [mfEmit, mfColumnKeys, he, hn] using ih
          · by_cases ht : (ds == isoDate d) = true
            · have ht2 : ds = isoDate d := by simpa using ht
              subst ht2
              simp [mfEmit, mfColumnKeys, mfTargetPeriodsOfKeys, he, hn, ih,
                List.filterMap_cons]
            · have ht2 : ¬ ds = isoDate d := by simpa using ht
              simp [mfEmit, mfColumnKeys, mfTargetPeriodsOfKeys, he, hn, ht2, ih,
                List.filterMap_cons]

/-- The periods `sfEmit` produces are exactly the target-dated column
keys. -/
theorem sfEmit_periods (m : Mountain) (d : Date)
    (phrases wind snow rain tmax tmin : List Str) :
    ∀ (cols : List (Option Str × Str)) (i : Nat),
      (sfEmit m d phrases wind snow rain tmax tmin cols i).map (fun p => p.period) =
        sfTargetPeriodsOfCols d cols
  | [], _ => rfl
  | (dateStr, lbl) :: rest, i => by
    have ih := sfEmit_periods m d phrases wind snow rain tmax tmin rest (i + 1)
    rcases dateStr with _ | ds
    · simpa [sfEmit, sfTargetPeriodsOfCols] using ih
    · by_cases he : ds.isEmpty = true
      · simpa [sfEmit, sfTargetPeriodsOfCols, he] using ih
      · by_cases ht : (ds != isoDate d) = true
        · simpa [sfEmit, sfTargetPeriodsOfCols, he, ht] using ih
        · rcases hn : sfNormalizePeriod (some lbl) with _ | pe
          · simpa [sfEmit, sfTargetPeriodsOfCols, he, ht, hn] using ih
          · simp [sfEmit, sfTargetPeriodsOfCols, he, ht, hn, ih]

/-- Mountain for the C3 counterexample and witness (the parsers ignore
its URL map). -/
def c3m : Mountain := { mountain_id := str "m3" }

/-- Document for the C3 counterexample: a malformed span makes two
columns resolve to the same (date, period) pair. -/
def c3doc : NamedTable :=
  ⟨[(str "days", [{ dataDate := some (str "2025-06-02"), colspanAttr := some (str "2") }]),
    (str "time", [{ text := str "AM" }, { text := str "AM" }])]⟩

/-- C3 counterexample: with a `colspan=2` date cell over two `AM`
columns, the parser emits two `morning` periods for the same day — the
period value is not unique within the resulting `ForecastDaily`. -/
theorem c3_counterexample :
    (mfParseForecastTable (some c3doc) c3m ⟨2025, 6, 2⟩).map
        (fun r => r.1.map (fun p => p.period)) =
      Except.ok [Period.morning, Period.morning] ∧
    ¬ ([Period.morning, Period.morning] : List Period).Nodup := by decide

/-- Whatever the Mountain-Forecast parser returns, its periods map to
the header-derived target keys. -/
theorem mfParse_fst_map (doc : Option NamedTable) (m : Mountain) (d : Date) :
    ∀ r, mfParseForecastTable doc m d = Except.ok r →
      r.1.map (fun p => p.period) = mfTargetKeys doc d := by
  intro r hok
  rcases doc with _ | table
  · have h : (Except.ok (([], []) : List ForecastPeriod × List SummaryCol) :
        Except PyErr _) = Except.ok r := hok
    rw [← Except.ok.inj h]
    rfl
  · rcases hexp : mfExpandDates table with e | dateLabels
    · simp [mfParseForecastTable, hexp] at hok
    · by_cases hif : (dateLabels.isEmpty || (mfRowValues table (str "time")).isEmpty) = true
      · simp [mfParseForecastTable, hexp, hif] at hok
        rw [← hok]
        simp [mfTargetKeys, hexp, hif]
      · simp [mfParseForecastTable, hexp, hif] at hok
        rw [← hok, mfEmit_periods]
        simp [mfTargetKeys, hexp, hif]

/-- Whatever the Snow-Forecast parser returns, its periods map to the
header-derived target keys. -/
theorem sfParse_map (doc : Option NamedTable) (m : Mountain) (d : Date) :
    ∀ r, sfParse doc m d = Except.ok r →
      r.map (fun p => p.period) = sfTargetKeys doc d := by
  intro r hok
  rcases doc with _ | table
  · have h : (Except.ok ([] : List ForecastPeriod) : Except PyErr _) = Except.ok r := hok
    rw [← Except.ok.inj h]
    rfl
  · rcases hd : selectRow table (str "days") with _ | dayCells
    · simp only [sfParse, hd, Except.ok.injEq] at hok
      rw [← hok]
      simp [sfTargetKeys, hd]
    · rcases ht : selectRow table (str "time") with _ | timeCells
      · simp only [sfParse, hd, ht, Except.ok.injEq] at hok
        rw [← hok]
        simp [sfTargetKeys, hd, ht]
      · rcases hseq : sfDateSequence dayCells with e | dateSeq
        · simp [sfParse, hd, ht, hseq] at hok
        · simp only [sfParse, hd, ht, hseq, Except.ok.injEq] at hok
          rw [← hok, sfEmit_periods]
          simp [sfTargetKeys, hd, ht, hseq]

/-- C3 (amended): the grid parsers do not deduplicate, so period values
are unique within a parsed `ForecastDaily` exactly when no two columns
of the document resolve to the same (target-date, period) pair; under
that condition — which malformed column spans can violate — both grid
parsers emit pairwise-distinct period values. -/
theorem c3_period_uniqueness :
    (∀ doc m d ps cols, mfParseForecastTable doc m d = Except.ok (ps, cols) →
      (mfTargetKeys doc d).Nodup → (ps.map (fun p => p.period)).Nodup) ∧
    (∀ doc m d ps, sfParse doc m d = Except.ok ps →
      (sfTargetKeys doc d).Nodup → (ps.map (fun p => p.period)).Nodup) := by
  constructor
  · intro doc m d ps cols hok hnd
    have h2 : ps.map (fun p => p.period) = mfTargetKeys doc d :=
      mfParse_fst_map doc m d (ps, cols) hok
    rw [h2]
    exact hnd
  · intro doc m d ps hok hnd
    have h2 : ps.map (fun p => p.period) = sfTargetKeys doc d :=
      sfParse_map doc m d ps hok
    rw [h2]
    exact hnd

/-- Document for the C3 witness: one date cell spanning an `AM` and a
`PM` column. -/
def c3wdoc : NamedTable :=
  ⟨[(str "days", [{ dataDate := some (str "2025-06-02"), colspanAttr := some (str "2") }]),
    (str "time", [{ text := str "AM" }, { text := str "PM" }])]⟩

/-- The periods the witness document parses to. -/
def c3wps : List ForecastPeriod :=
  [{ mountain_id := str "m3", source_name := mfSourceName, target_date := ⟨2025, 6, 2⟩,
     period := Period.morning },
   { mountain_id := str "m3", source_name := mfSourceName, target_date := ⟨2025, 6, 2⟩,
     period := Period.afternoon }]

/-- The summary columns the witness document parses to. -/
def c3wcols : List SummaryCol :=
  [{ date := some (str "2025-06-02"), period_label := str "am", weather := none,
     wind_direction := none, wind_speed_kmh := none, wind_speed_ms := none,
     wind_gust_kmh := none, wind_gust_ms := none, temperature_max_c := none,
     temperature_min_c := none, temperature_chill_c := none, snowfall_cm := none,
     rain_mm := none },
   { date := some (str "2025-06-02"), period_label := str "pm", weather := none,
     wind_direction := none, wind_speed_kmh := none, wind_speed_ms := none,
     wind_gust_kmh := none, wind_gust_ms := none, temperature_max_c := none,
     temperature_min_c := none, temperature_chill_c := none, snowfall_cm := none,
     rain_mm := none }]

/-- C3 witness: on a document whose two target-date columns normalize
to distinct periods, the emitted period values are pairwise distinct. -/
theorem c3_witness : (c3wps.map (fun p => p.period)).Nodup :=
  c3_period_uniqueness.1 (some c3wdoc) c3m ⟨2025, 6, 2⟩ c3wps c3wcols (by decide) (by decide)

/-! ## Claim C4: `extractFloat` -/

/-- The regex `-?\d+(?:\.\d+)?` as a predicate on a whole word, with the
sign stripped: digits, optionally a dot and more digits. -/
def isNumeralCore (m : Str) : Bool :=
  !(m.takeWhile Char.isDigit).isEmpty &&
    (match m.dropWhile Char.isDigit with
     | [] => true
     | '.' :: fs => !fs.isEmpty && fs.all Char.isDigit
     | _ => false)

/-- A signed decimal numeral: what the regex `-?\d+(?:\.\d+)?` matches
as a whole word. -/
def isNumeral (m : Str) : Bool :=
  match m with
  | '-' :: r => isNumeralCore r
  | r => isNumeralCore r

/-- `s` contains a signed decimal numeral substring. -/
def HasNumSubstr (s : Str) : Prop :=
  ∃ pre mm post, s = pre ++ mm ++ post ∧ isNumeral mm = true

theorem takeWhile_all (p : Char → Bool) : ∀ l : Str, (l.takeWhile p).all p = true
  | [] => rfl
  | c :: rest => by
    by_cases h : p c = true
    · simp [List.takeWhile_cons, h, takeWhile_all p rest]
    · simp [List.takeWhile_cons, h]

theorem takeWhile_app (p : Char → Bool) :
    ∀ l t : Str, l.all p = true → (∀ c cs, t = c :: cs → p c = false) →
      (l ++ t).takeWhile p = l ∧ (l ++ t).dropWhile p = t
  | [], t, _, ht => by
    cases t with
    | nil => exact ⟨rfl, rfl⟩
    | cons c cs => simp [List.takeWhile_cons, List.dropWhile_cons, ht c cs rfl]
  | a :: l, t, hl, ht => by
    simp only [List.all_cons, Bool.and_eq_true] at hl
    have ih := takeWhile_app p l t hl.2 ht
    simp [List.takeWhile_cons, List.dropWhile_cons, hl.1, ih.1, ih.2]

/-- A numeral's head after the optional sign is a digit. -/
theorem head_digit_of_core (x : Char) (l : Str) (h : isNumeralCore (x :: l) = true) :
    x.isDigit = true := by
  by_contra hx
  have hx2 : x.isDigit = false := by
    cases h2 : x.isDigit
    · rfl
    · exact absurd h2 hx
  simp [isNumeralCore, List.takeWhile_cons, hx2] at h

theorem isNumeralCore_ne_nil : isNumeralCore [] = false := rfl

/-- Select the sign-less arm of `isNumeral` at a digit head. -/
theorem isNumeral_cons_digit (x : Char) (l : Str) (h : x.isDigit = true) :
    isNumeral (x :: l) = isNumeralCore (x :: l) := by
  unfold isNumeral
  split
  · rename_i r heq
    rw [List.cons.injEq] at heq
    rw [heq.1] at h
    simp at h
  · rfl

/-- Select the sign-less arm of `matchNum` at a digit head. -/
theorem matchNum_cons_digit (x : Char) (l : Str) (h : x.isDigit = true) :
    matchNum (x :: l) = matchNumCore (x :: l) := by
  unfold matchNum
  split
  · rename_i r heq
    rw [List.cons.injEq] at heq
    rw [heq.1] at h
    simp at h
  · rfl

/-- `matchNumCore` succeeds at a digit head. -/
theorem matchNumCore_some_of_digit (x : Char) (l : Str) (h : x.isDigit = true) :
    ∃ m, matchNumCore (x :: l) = some m := by
  unfold matchNumCore
  rw [List.takeWhile_cons, if_pos h]
  simp only [List.isEmpty_cons, Bool.false_eq_true, if_false]
  split
  · split
    · exact ⟨_, rfl⟩
    · exact ⟨_, rfl⟩
  · exact ⟨_, rfl⟩

/-- `matchNum` succeeds at a digit head. -/
theorem matchNum_some_of_digit (x : Char) (l : Str) (h : x.isDigit = true) :
    ∃ m, matchNum (x :: l) = some m := by
  rw [matchNum_cons_digit x l h]
  exact matchNumCore_some_of_digit x l h

/-- A successful `matchNumCore` yields a digit in the input. -/
theorem matchNumCore_some_has_digit (r : Str) (m : Str) (h : matchNumCore r = some m) :
    ∃ x ∈ r, x.isDigit = true := by
  cases r with
  | nil => exact absurd h (by simp [matchNumCore])
  | cons x l =>
    by_cases hx : x.isDigit = true
    · exact ⟨x, by simp, hx⟩
    · have hx2 : x.isDigit = false := by
        cases h2 : x.isDigit
        · rfl
        · exact absurd h2 hx
      simp [matchNumCore, List.takeWhile_cons, hx2] at h

/-- A successful `matchNum` yields a digit in the input. -/
theorem matchNum_some_has_digit (cs : Str) (m : Str) (h : matchNum cs = some m) :
    ∃ x ∈ cs, x.isDigit = true := by
  unfold matchNum at h
  revert h
  split
  · intro h
    rename_i r
    rcases hm : matchNumCore r with _ | m0
    · rw [hm] at h; simp at h
    · obtain ⟨x, hx, hd⟩ := matchNumCore_some_has_digit r m0 hm
      exact ⟨x, by simp [hx], hd⟩
  · intro h
    exact matchNumCore_some_has_digit _ _ h

theorem bool_eq_false {b : Bool} (h : ¬ b = true) : b = false := by
  cases b
  · rfl
  · exact absurd rfl h

theorem isNumeral_neg_cons (r : Str) : isNumeral ('-' :: r) = isNumeralCore r := rfl

theorem matchNum_neg_cons (r : Str) :
    matchNum ('-' :: r) = (matchNumCore r).map (fun m => '-' :: m) := rfl

theorem isNumeral_nil : isNumeral [] = false := rfl

/-- A string of digits is an (unsigned) numeral. -/
theorem isNumeralCore_digits (ds : Str) (hne : ds.isEmpty = false)
    (hall : ds.all Char.isDigit = true) : isNumeralCore ds = true := by
  have h := takeWhile_app Char.isDigit ds [] hall (by intro c cs hc; cases hc)
  simp only [List.append_nil] at h
  unfold isNumeralCore
  rw [h.1, h.2, hne]
  rfl

/-- Digits, a dot, and more digits form an (unsigned) numeral. -/
theorem isNumeralCore_frac (ds fs : Str) (hne : ds.isEmpty = false)
    (hall : ds.all Char.isDigit = true) (hfne : fs.isEmpty = false)
    (hfall : fs.all Char.isDigit = true) : isNumeralCore (ds ++ '.' :: fs) = true := by
  have h := takeWhile_app Char.isDigit ds ('.' :: fs) hall
    (by
      intro c cs hc
      rw [List.cons.injEq] at hc
      rw [← hc.1]
      decide)
  unfold isNumeralCore
  rw [h.1, h.2, hne]
  simp [hfne, hfall]

/-- A successful `matchNumCore` match is a numeral that the input
begins with. -/
theorem matchNumCore_decomp (r m : Str) (h : matchNumCore r = some m) :
    (∃ t, r = m ++ t) ∧ isNumeralCore m = true := by
  unfold matchNumCore at h
  by_cases hds : (r.takeWhile Char.isDigit).isEmpty = true
  · rw [if_pos hds] at h
    exact absurd h (by simp)
  · rw [if_neg hds] at h
    have hne := bool_eq_false hds
    have hall := takeWhile_all Char.isDigit r
    have hsplit := List.takeWhile_append_dropWhile (p := Char.isDigit) (l := r)
    revert h
    split
    · rename_i r3 heq
      intro h
      by_cases hfs : (r3.takeWhile Char.isDigit).isEmpty = true
      · rw [if_pos hfs] at h
        rw [← Option.some.inj h]
        exact ⟨⟨r.dropWhile Char.isDigit, hsplit.symm⟩, isNumeralCore_digits _ hne hall⟩
      · rw [if_neg hfs] at h
        rw [← Option.some.inj h]
        constructor
        · refine ⟨r3.dropWhile Char.isDigit, ?_⟩
          have h3 := List.takeWhile_append_dropWhile (p := Char.isDigit) (l := r3)
          calc r = r.takeWhile Char.isDigit ++ r.dropWhile Char.isDigit := hsplit.symm
            _ = r.takeWhile Char.isDigit ++ '.' :: r3 := by rw [heq]
            _ = r.takeWhile Char.isDigit ++
                  '.' :: (r3.takeWhile Char.isDigit ++ r3.dropWhile Char.isDigit) := by rw [h3]
            _ = (r.takeWhile Char.isDigit ++ '.' :: r3.takeWhile Char.isDigit) ++
                  r3.dropWhile Char.isDigit := by simp
        · exact isNumeralCore_frac _ _ hne hall (bool_eq_false hfs) (takeWhile_all _ _)
    · intro h
      rw [← Option.some.inj h]
      exact ⟨⟨r.dropWhile Char.isDigit, hsplit.symm⟩, isNumeralCore_digits _ hne hall⟩

/-- A successful `matchNum` match is a numeral that the input begins
with. -/
theorem matchNum_decomp (cs m : Str) (h : matchNum cs = some m) :
    (∃ t, cs = m ++ t) ∧ isNumeral m = true := by
  unfold matchNum at h
  revert h
  split
  · rename_i r
    intro h
    obtain ⟨m0, hm0, hmm⟩ := Option.map_eq_some'.mp h
    obtain ⟨⟨t, ht⟩, hcore⟩ := matchNumCore_decomp r m0 hm0
    rw [← hmm]
    exact ⟨⟨t, by rw [ht]; rfl⟩, by rw [isNumeral_neg_cons]; exact hcore⟩
  · rename_i hne
    intro h
    obtain ⟨⟨t, ht⟩, hcore⟩ := matchNumCore_decomp _ _ h
    refine ⟨⟨t, ht⟩, ?_⟩
    cases m with
    | nil => exact absurd hcore (by decide)
    | cons x l =>
      have hx := head_digit_of_core x l hcore
      rw [isNumeral_cons_digit x l hx]
      exact hcore

/-- A numeral starting at a position makes the anchored match succeed
there. -/
theorem matchNum_some_of_numeral (mm post : Str) (h : isNumeral mm = true) :
    ∃ m2, matchNum (mm ++ post) = some m2 := by
  cases mm with
  | nil => exact absurd h (by decide)
  | cons x r =>
    by_cases hx : x = '-'
    · subst hx
      rw [isNumeral_neg_cons] at h
      cases r with
      | nil => exact absurd h (by decide)
      | cons y r2 =>
        have hy := head_digit_of_core y r2 h
        obtain ⟨m0, hm0⟩ := matchNumCore_some_of_digit y (r2 ++ post) hy
        refine ⟨'-' :: m0, ?_⟩
        have : ('-' :: y :: r2) ++ post = '-' :: (y :: (r2 ++ post)) := by simp
        rw [this, matchNum_neg_cons, hm0]
        rfl
    · have hcore : isNumeralCore (x :: r) = true := by
        unfold isNumeral at h
        revert h
        split
        · rename_i r' heq
          rw [List.cons.injEq] at heq
          exact absurd heq.1 hx
        · intro h
          exact h
      have hx2 := head_digit_of_core x r hcore
      obtain ⟨m0, hm0⟩ := matchNumCore_some_of_digit x (r ++ post) hx2
      refine ⟨m0, ?_⟩
      have : (x :: r) ++ post = x :: (r ++ post) := by simp
      rw [this, matchNum_cons_digit x _ hx2, hm0]

/-- `re.search` for the numeral regex finds nothing exactly when the
text has no digit. -/
theorem numSearchIdx_eq_none : ∀ s : Str,
    (numSearchIdx s = none ↔ ∀ c ∈ s, c.isDigit = false)
  | [] => by simp [numSearchIdx]
  | c :: rest => by
    have ih := numSearchIdx_eq_none rest
    constructor
    · intro h x hx
      rcases hm : matchNum (c :: rest) with _ | m
      · have hrest : numSearchIdx rest = none := by
          unfold numSearchIdx at h
          rw [hm] at h
          simpa using h
        rcases List.mem_cons.mp hx with rfl | hx2
        · cases hd : x.isDigit
          · rfl
          · obtain ⟨m, hm2⟩ := matchNum_some_of_digit x rest hd
            rw [hm] at hm2
            cases hm2
        · exact (ih.mp hrest) x hx2
      · exfalso
        unfold numSearchIdx at h
        rw [hm] at h
        cases h
    · intro h
      have hc : matchNum (c :: rest) = none := by
        rcases hm : matchNum (c :: rest) with _ | m
        · rfl
        · obtain ⟨x, hx, hd⟩ := matchNum_some_has_digit _ _ hm
          rw [h x hx] at hd
          cases hd
      have hrest := ih.mpr (fun x hx => h x (List.mem_cons_of_mem c hx))
      unfold numSearchIdx
      rw [hc, hrest]
      rfl

/-- A successful search result is a numeral substring occurring at the
reported index. -/
theorem numSearchIdx_decomp : ∀ (s : Str) (i : Nat) (m : Str),
    numSearchIdx s = some (i, m) →
      ∃ pre post, s = pre ++ m ++ post ∧ pre.length = i ∧ isNumeral m = true
  | [], i, m, h => by simp [numSearchIdx] at h
  | c :: rest, i, m, h => by
    rcases hm : matchNum (c :: rest) with _ | m0
    · unfold numSearchIdx at h
      rw [hm] at h
      obtain ⟨⟨i2, m2⟩, hrest, heq⟩ := Option.map_eq_some'.mp h
      dsimp only at heq
      rw [Prod.mk.injEq] at heq
      obtain ⟨hi, hm2⟩ := heq
      subst hi
      subst hm2
      obtain ⟨pre, post, hs, hlen, hnum⟩ := numSearchIdx_decomp rest i2 m2 hrest
      exact ⟨c :: pre, post, by simp [hs],
        by rw [List.length_cons, hlen], hnum⟩
    · unfold numSearchIdx at h
      rw [hm] at h
      have heq := Option.some.inj h
      rw [Prod.mk.injEq] at heq
      obtain ⟨⟨t, ht⟩, hnum⟩ := matchNum_decomp (c :: rest) m0 hm
      exact ⟨[], t, by rw [← heq.2, List.nil_append, ← ht], by rw [← heq.1]; rfl, by
        rw [← heq.2]; exact hnum⟩

/-- No numeral substring starts strictly before the reported match
index: the search is leftmost. -/
theorem numSearchIdx_leftmost : ∀ (pre s : Str) (i : Nat) (m : Str),
    numSearchIdx s = some (i, m) →
      ∀ mm post, s = pre ++ mm ++ post → isNumeral mm = true → i ≤ pre.length
  | [], s, i, m => by
    intro h mm post hs hmm
    subst hs
    obtain ⟨m2, hm2⟩ := matchNum_some_of_numeral mm post hmm
    cases mm with
    | nil => exact absurd hmm (by decide)
    | cons c mrest =>
      rw [List.nil_append, List.cons_append] at h
      rw [List.cons_append] at hm2
      unfold numSearchIdx at h
      rw [hm2] at h
      have := Option.some.inj h
      rw [Prod.mk.injEq] at this
      rw [← this.1]
      exact Nat.le_refl 0
  | pc :: pre2, s, i, m => by
    intro h mm post hs hmm
    subst hs
    rw [List.cons_append, List.cons_append] at h
    rcases hm : matchNum (pc :: (pre2 ++ mm ++ post)) with _ | m0
    · unfold numSearchIdx at h
      rw [hm] at h
      obtain ⟨⟨i2, m2⟩, hrest, heq⟩ := Option.map_eq_some'.mp h
      dsimp only at heq
      rw [Prod.mk.injEq] at heq
      have hih := numSearchIdx_leftmost pre2 (pre2 ++ mm ++ post) i2 m2 hrest mm post rfl hmm
      rw [← heq.1, List.length_cons]
      exact Nat.succ_le_succ hih
    · unfold numSearchIdx at h
      rw [hm] at h
      have := Option.some.inj h
      rw [Prod.mk.injEq] at this
      rw [← this.1]
      exact Nat.zero_le _

/-- A numeral contains a digit. -/
theorem isNumeral_has_digit (mm : Str) (h : isNumeral mm = true) :
    ∃ x ∈ mm, x.isDigit = true := by
  cases mm with
  | nil => exact absurd h (by decide)
  | cons x r =>
    by_cases hx : x = '-'
    · subst hx
      rw [isNumeral_neg_cons] at h
      cases r with
      | nil => exact absurd h (by decide)
      | cons y r2 => exact ⟨y, by simp, head_digit_of_core y r2 h⟩
    · have hcore : isNumeralCore (x :: r) = true := by
        unfold isNumeral at h
        revert h
        split
        · rename_i r2 heq
          rw [List.cons.injEq] at heq
          exact absurd heq.1 hx
        · intro h
          exact h
      exact ⟨x, by simp, head_digit_of_core x r hcore⟩

/-- A text has a numeral substring exactly when it has a digit. -/
theorem hasNumSubstr_iff_digit (s : Str) :
    HasNumSubstr s ↔ ∃ x ∈ s, x.isDigit = true := by
  constructor
  · rintro ⟨pre, mm, post, hs, hmm⟩
    obtain ⟨x, hx, hd⟩ := isNumeral_has_digit mm hmm
    exact ⟨x, by subst hs; simp [hx], hd⟩
  · rintro ⟨x, hx, hd⟩
    obtain ⟨s1, s2, hs⟩ := List.append_of_mem hx
    have hnum : isNumeral [x] = true := by
      rw [isNumeral_cons_digit x [] hd]
      simp [isNumeralCore, List.takeWhile_cons, List.dropWhile_cons, hd]
    exact ⟨s1, [x], s2, by simpa using hs, hnum⟩

/-- A value produced by `SnowForecastSource._value_at` is never the
empty string. -/
theorem sfValueAt_ne_empty (values : List Str) (idx : Nat) (t : Str)
    (h : sfValueAt values idx = some t) : t.isEmpty = false := by
  unfold sfValueAt at h
  rcases hg : values.get? idx with _ | v
  · rw [hg] at h
    cases h
  · rw [hg] at h
    simp only [noneIfEmpty] at h
    by_cases hw : (strip v).isEmpty = true
    · rw [if_pos hw] at h
      cases h
    · rw [if_neg hw] at h
      rw [← Option.some.inj h]
      exact bool_eq_false hw

/-- C4: `extractFloat` (Mountain-Forecast's `_parse_float`, and
identically Snow-Forecast's `_extract_float`) returns none iff the text
contains no signed decimal numeral substring; otherwise it returns the
exact rational value of the leftmost numeral substring (no numeral
starts earlier than the match), and it is total — absent-or-present,
never an error. -/
theorem c4_extractFloat (s : Str) :
    (mfParseFloat (some s) = none ↔ ¬ HasNumSubstr s) ∧
    (∀ v, mfParseFloat (some s) = some v →
      ∃ i m, numSearchIdx s = some (i, m) ∧ isNumeral m = true ∧ v = ratOfNumeral m ∧
        (∃ pre post, s = pre ++ m ++ post ∧ pre.length = i) ∧
        (∀ pre mm post, s = pre ++ mm ++ post → isNumeral mm = true → i ≤ pre.length)) ∧
    (∀ (values : List Str) (idx : Nat),
      sfExtractFloat values idx = mfParseFloat (sfValueAt values idx)) := by
  refine ⟨?_, ?_, ?_⟩
  · cases s with
    | nil =>
      simp only [mfParseFloat, List.isEmpty_nil, if_true]
      constructor
      · rintro - ⟨pre, mm, post, hs, hmm⟩
        have hlen := congrArg List.length hs
        simp only [List.length_nil, List.length_append] at hlen
        have hmm0 : mm = [] := List.eq_nil_of_length_eq_zero (by omega)
        rw [hmm0] at hmm
        exact absurd hmm (by decide)
      · intro h
        trivial
    | cons c rest =>
      have hne : (c :: rest).isEmpty = false := rfl
      simp only [mfParseFloat, hne, Bool.false_eq_true, if_false, numSearch,
        Option.map_map, Option.map_eq_none']
      rw [numSearchIdx_eq_none, hasNumSubstr_iff_digit]
      constructor
      · intro h hex
        obtain ⟨x, hx, hd⟩ := hex
        rw [h x hx] at hd
        cases hd
      · intro h x hx
        cases hd : x.isDigit
        · rfl
        · exact absurd ⟨x, hx, hd⟩ h
  · intro v hv
    cases s with
    | nil => simp [mfParseFloat] at hv
    | cons c rest =>
      have hne : (c :: rest).isEmpty = false := rfl
      simp only [mfParseFloat, hne, Bool.false_eq_true, if_false, numSearch,
        Option.map_map, Option.map_eq_some'] at hv
      obtain ⟨⟨i, m⟩, hidx, hval⟩ := hv
      obtain ⟨pre, post, hs, hlen, hnum⟩ := numSearchIdx_decomp (c :: rest) i m hidx
      refine ⟨i, m, hidx, hnum, hval.symm, ⟨pre, post, hs, hlen⟩, ?_⟩
      intro pre2 mm post2 hs2 hmm
      exact numSearchIdx_leftmost pre2 (c :: rest) i m hidx mm post2 hs2 hmm
  · intro values idx
    rcases hv : sfValueAt values idx with _ | t
    · simp [sfExtractFloat, mfParseFloat, hv]
    · have hne := sfValueAt_ne_empty values idx t hv
      simp [sfExtractFloat, mfParseFloat, hv, hne]

/-- C4 witness: the iff applied at digit-free text, and the search
value at text with a leading garbage prefix. -/
theorem c4_witness :
    ¬ HasNumSubstr (str "n/a") ∧
    mfParseFloat (some (str "x -12.5 cm")) = some (-(25 / 2) : Rat) :=
  ⟨(c4_extractFloat (str "n/a")).1.mp (by decide), by decide⟩

/-! ## Claim C9: PowderSearch's hourly `collect` -/

/-- C9: whenever PowderSearch's `collect` succeeds (URL configured,
fetch delivering a document), the resulting `ForecastDaily` has an
empty `periods` list; its auxiliary `hours` are exactly the rows the
hourly parser extracts for the target day-of-month (a permutation of
them), sorted ascending by hour; and a cell holding a missing-value
marker surfaces as `none`, never as a number. -/
theorem c9_hourly_collect (env : FetchEnv (Option PSTable)) (m : Mountain) (d : Date)
    (fetchedAt url : Str) (doc : Option PSTable)
    (hurl : lookupSource m psSourceName = some url) (hne : url.isEmpty = false)
    (hfetch : fetchWithFallback psSourceName d env url = Except.ok doc) :
    ∃ daily, psCollect env m d fetchedAt = Except.ok daily ∧
      daily.periods = [] ∧
      daily.daily_summary_json.hours =
        some ((psParseHourlyTable doc d).mergeSort hourLe) ∧
      ((psParseHourlyTable doc d).mergeSort hourLe).Perm (psParseHourlyTable doc d) ∧
      ((psParseHourlyTable doc d).mergeSort hourLe).Pairwise
        (fun a b => a.hour ≤ b.hour) ∧
      (∀ (cells : List Cell) (i : Nat) (c : Cell), cells.get? i = some c →
        ((psCellText c).isEmpty || psMissingMarkers.contains (psCellText c)) = true →
        psExtractFloat cells i = none) := by
  have hstep : psCollect env m d fetchedAt =
      Except.ok
        { mountain_id := m.mountain_id
          source_name := psSourceName
          target_date := d
          periods := []
          daily_summary_json :=
            { hours := some ((psParseHourlyTable doc d).mergeSort hourLe)
              source_urls := [url]
              fetched_at := some fetchedAt
              units := psUnits } } := by
    simp [psCollect, psBuildRequests, hurl, hne, psCollectGo, hfetch]
  refine ⟨_, hstep, rfl, rfl, List.mergeSort_perm _ _, ?_, ?_⟩
  · have htrans : ∀ a b c : HourEntry, hourLe a b → hourLe b c → hourLe a c := by
      intro a b c hab hbc
      simp only [hourLe, decide_eq_true_eq] at hab hbc ⊢
      exact le_trans hab hbc
    have htotal : ∀ a b : HourEntry, hourLe a b || hourLe b a := by
      intro a b
      simp only [hourLe, Bool.or_eq_true, decide_eq_true_eq]
      exact Int.le_total a.hour b.hour
    have h := List.sorted_mergeSort htrans htotal (psParseHourlyTable doc d)
    exact h.imp (fun hab => by simpa [hourLe] using hab)
  · intro cells i c hget hmiss
    rw [List.get?_eq_getElem?] at hget
    have hm2 : psCellText c = [] ∨ psCellText c ∈ psMissingMarkers := by simpa using hmiss
    rcases hm2 with h | h <;> simp [psExtractFloat, hget, h]

/-- Mountain for the C9 witness. -/
def c9m : Mountain :=
  { mountain_id := str "m9"
    sources := [(str "powdersearch", str "https://example.com/h")] }

/-- Hourly table for the C9 witness: a rowspan day cell `20` governing
an hour-23 row and a following hour-21 row, with a missing temperature
marker on neither. -/
def c9doc : PSTable :=
  ⟨[[{ hasRowspan := true, text := str "20" }, { text := str "23" }, { text := str "-1.5" }],
    [{ text := str "21" }, { text := str "0.5" }]]⟩

def c9env : FetchEnv (Option PSTable) := { live := Except.ok (some c9doc) }

/-- C9 witness: the hourly-collect theorem at a concrete document whose
rows arrive out of hour order. -/
theorem c9_witness :
    ∃ daily, psCollect c9env c9m ⟨2025, 12, 20⟩ (str "T") = Except.ok daily ∧
      daily.periods = [] ∧
      daily.daily_summary_json.hours =
        some ((psParseHourlyTable (some c9doc) ⟨2025, 12, 20⟩).mergeSort hourLe) ∧
      ((psParseHourlyTable (some c9doc) ⟨2025, 12, 20⟩).mergeSort hourLe).Perm
        (psParseHourlyTable (some c9doc) ⟨2025, 12, 20⟩) ∧
      ((psParseHourlyTable (some c9doc) ⟨2025, 12, 20⟩).mergeSort hourLe).Pairwise
        (fun a b => a.hour ≤ b.hour) ∧
      (∀ (cells : List Cell) (i : Nat) (c : Cell), cells.get? i = some c →
        ((psCellText c).isEmpty || psMissingMarkers.contains (psCellText c)) = true →
        psExtractFloat cells i = none) :=
  c9_hourly_collect c9env c9m ⟨2025, 12, 20⟩ (str "T") (str "https://example.com/h")
    (some c9doc) (by decide) (by decide) (by decide)
example : replaceStr (str "a km/h b") (str "km/h") [] = str "a  b" := by decide
example : numSearch (str "x-3.5y") = some (str "-3.5") := by decide
example : numSearch (str "abc") = none := by decide
example : ratOfNumeral (str "-3.5") = (-7) / 2 := by decide
example : round2 (20 / (36 / 10)) = 556 / 100 := by decide
example : parseIntStr (str " -12 ") = some (-12) := by decide
example : parseIntStr (str "x") = none := by decide
